import Mathlib

/-!
Verification development for the proxy-testing engine of this repository.

The repository contains two variants of the tester:
* `src/proxy-tester.js` (first document, the "Fixed Version") — modelled in
  namespace `PT`;
* `src/unnamed/part_000` (the plain "proxy-tester.js" variant) — modelled in
  namespace `P0`.

All string processing is embedded at the `List Char` level with structural
recursion so that every definition evaluates inside the kernel (`decide`/`rfl`).
-/

/-! ### Character-level string utilities (shared) -/

/-- Tests whether `n` is a prefix of `h`, character by character
(the JS `String.prototype.startsWith` / the prefix test of `includes`). -/
def startsList : List Char → List Char → Bool
  | [], _ => true
  | _ :: _, [] => false
  | n :: ns, h :: hs => n == h && startsList ns hs

/-- Tests `f` on every suffix of the character list (used to model the
"substring somewhere" semantics of JS `String.prototype.includes` and of an
unanchored regex match). -/
def anySuffix (f : List Char → Bool) : List Char → Bool
  | [] => f []
  | c :: cs => f (c :: cs) || anySuffix f cs

/-- JS `hay.includes(needle)`. -/
def containsSub (hay needle : String) : Bool :=
  anySuffix (startsList needle.data) hay.data

/-- All character lists reachable from `cs` by consuming one, two or three
leading decimal digits — the possible remainders of the backtracking regex
fragment `\d{1,3}`. -/
def restsAfterDigits (cs : List Char) : List (List Char) :=
  match cs with
  | c1 :: r1 =>
    if c1.isDigit then
      r1 :: (match r1 with
             | c2 :: r2 =>
               if c2.isDigit then
                 r2 :: (match r2 with
                        | c3 :: r3 => if c3.isDigit then [r3] else []
                        | [] => [])
               else []
             | [] => [])
    else []
  | [] => []

/-- Continuation that requires a literal dot and then runs `k`. -/
def dotThen (k : List Char → Bool) (cs : List Char) : Bool :=
  match cs with
  | '.' :: rest => k rest
  | _ => false

/-- Matches the regex `\d{1,3}\.\d{1,3}\.\d{1,3}\.\d{1,3}` at the head of
`cs` (with the full backtracking search over the digit-group lengths). -/
def ipv4At (cs : List Char) : Bool :=
  (restsAfterDigits cs).any (dotThen (fun r1 =>
    (restsAfterDigits r1).any (dotThen (fun r2 =>
      (restsAfterDigits r2).any (dotThen (fun r3 =>
        !(restsAfterDigits r3).isEmpty))))))

/-- JS `s.match(/\d{1,3}\.\d{1,3}\.\d{1,3}\.\d{1,3}/)` viewed as a Boolean:
the string contains an IPv4-shaped substring. -/
def containsIPv4 (s : String) : Bool :=
  anySuffix ipv4At s.data

/-- Splits a character list at every character satisfying `f`; empty segments
are kept (they are discarded later by validation, which makes this equivalent
to the JS split-on-a-run regex `split(/[\r\n]+/)` for the filtered output). -/
def splitOnPred (f : Char → Bool) : List Char → List (List Char)
  | [] => [[]]
  | a :: as =>
    match splitOnPred f as with
    | [] => [[]]
    | g :: gs => if f a then [] :: g :: gs else (a :: g) :: gs

/-- JS `s.split(c)` for a single-character separator. -/
def splitOnChar (c : Char) (cs : List Char) : List (List Char) :=
  splitOnPred (fun a => a == c) cs

/-- Hostname of a URL as computed by `new URL(url).hostname` for the simple
`scheme://host/...`, `scheme://host?...` URLs used here (no port, no
userinfo, already lower-case). -/
def urlHostname (url : String) : String :=
  let rec afterScheme : List Char → List Char
    | '/' :: '/' :: rest => rest
    | _ :: rest => afterScheme rest
    | [] => []
  String.mk ((afterScheme url.data).takeWhile
    (fun c => !(c == '/' || c == '?' || c == '#' || c == ':')))

/-- JS `url.split('/')[2]` (the authority part including any query glued to
it, which is exactly what the source computes on failure paths). -/
def splitSlashTwo (url : String) : String :=
  String.mk ((splitOnChar '/' url.data).getD 2 [])

/-- The whitespace class used to model JS `\s` and `String.prototype.trim`
(restricted to the characters that occur in proxy-list payloads). -/
def wsChar (c : Char) : Bool :=
  c == ' ' || c == '\t' || c == '\n' || c == '\r'

/-- JS `line.trim()`. -/
def trimChars (cs : List Char) : List Char :=
  ((cs.dropWhile wsChar).reverse.dropWhile wsChar).reverse

/-- JS `cleaned.replace(/^https?:\/\//, "")`. -/
def stripScheme (cs : List Char) : List Char :=
  if startsList "http://".data cs then cs.drop 7
  else if startsList "https://".data cs then cs.drop 8
  else cs

/-- JS `cleaned.split(/[\s#]/)[0]`. -/
def untilSep (cs : List Char) : List Char :=
  cs.takeWhile (fun c => !(wsChar c || c == '#'))

/-- Digit-run check: between `lo` and `hi` characters, all decimal digits. -/
def digitsLen (cs : List Char) (lo hi : Nat) : Bool :=
  decide (lo ≤ cs.length) && decide (cs.length ≤ hi) && cs.all (·.isDigit)

/-- Numeric value of a digit run (used only to talk about ports in claims). -/
def charsToNat (cs : List Char) : Nat :=
  cs.foldl (fun n c => n * 10 + (c.toNat - '0'.toNat)) 0

/-! ### Common probe data model (shared by both variants) -/

/-- Outcome of one attempt of the transport (axios through the proxy agent).
`ok body` is an HTTP 200 response whose body text is `body` (the source sets
`validateStatus: status => status === 200`, so every non-200 response, network
error or timeout surfaces as a thrown error, modelled by `err`).  For JSON
responses `body` is the `JSON.stringify` rendering the source computes. -/
inductive AttemptOutcome
  | ok (body : String)
  | err (msg : String)
deriving DecidableEq, Repr

/-- True when the attempt outcome is a thrown error. -/
def isErrOutcome : AttemptOutcome → Bool
  | .ok _ => false
  | .err _ => true

/-- Classification result returned by `testProxy`.  Success results carry
`attempt`/`responseSize`; failure results carry `attempts`/`error`.  Fields a
variant does not set are `none` / `""` (the JS object simply lacks them). -/
structure TestResult where
  proxy : String
  success : Bool
  responseTime : Nat
  testUrl : String
  attempt : Option Nat
  attempts : Option Nat
  error : Option String
  responseSize : Option Nat
deriving DecidableEq, Repr

/-- A probe run instrumented with the list of verification-target indices it
actually consulted, in order. -/
structure ProbeRun where
  result : TestResult
  targetsTried : List Nat
deriving DecidableEq, Repr

/-! ### PT: `src/proxy-tester.js` (the "Fixed Version") -/

namespace PT

/-- The verification-target list of `src/proxy-tester.js`. -/
def testUrls : List String :=
  ["http://httpbin.org/ip", "https://api.ipify.org?format=json", "https://icanhazip.com"]

/-- Source: `const maxRetries = testUrls.length;`. -/
def maxRetries : Nat := testUrls.length

/-- Source: `responseText.match(ipv4) || responseText.includes('origin') ||
responseText.length > 5`. -/
def validBody (s : String) : Bool :=
  containsIPv4 s || containsSub s "origin" || decide (s.length > 5)

/-- One attempt "validates" when the transport returned a 200 response with a
truthy (non-empty) body that passes `validBody`. -/
def validates (o : AttemptOutcome) : Bool :=
  match o with
  | .ok body => !body.isEmpty && validBody body
  | .err _ => false

/-- The retry loop of `testProxy`.  `tr` gives the transport outcome per
verification-target index; `du` gives the wall-clock duration of the attempt
at each retry index, and `elapsed` accumulates `Date.now() - startTime`.
The function is called with `fuel = maxRetries - retry`, so `fuel = 0`
is the loop exit (`retry < maxRetries` fails) and, inside a step, `fuel = 0`
for the recursive position corresponds to the source's last-retry test
`retry === maxRetries - 1`. -/
def testProxyGo (prox : String) (seed : Nat) (tr : Nat → AttemptOutcome)
    (du : Nat → Nat) : Nat → Nat → Nat → List Nat → ProbeRun
  | 0, _retry, elapsed, tried =>
    -- fell off the loop: `return { proxy, success: false, ..., attempts: maxRetries,
    -- error: 'All test URLs failed', testUrl: 'multiple' }`
    { result := { proxy := prox, success := false, responseTime := elapsed,
                  testUrl := "multiple", attempt := none, attempts := some maxRetries,
                  error := some "All test URLs failed", responseSize := none },
      targetsTried := tried }
  | fuel + 1, retry, elapsed, tried =>
    let t := (seed + retry) % testUrls.length
    let el := elapsed + du retry
    let tried' := tried ++ [t]
    match tr t with
    | .ok body =>
      if !body.isEmpty && validBody body then
        { result := { proxy := prox, success := true, responseTime := el,
                      testUrl := urlHostname (testUrls.getD t ""),
                      attempt := some (retry + 1), attempts := none,
                      error := none, responseSize := some body.length },
          targetsTried := tried' }
      else
        testProxyGo prox seed tr du fuel (retry + 1) el tried'
    | .err m =>
      if fuel = 0 then
        -- `retry === maxRetries - 1`: return the catch-clause failure
        { result := { proxy := prox, success := false, responseTime := el,
                      testUrl := splitSlashTwo (testUrls.getD t ""),
                      attempt := none, attempts := some (retry + 1),
                      error := some m, responseSize := none },
          targetsTried := tried' }
      else
        testProxyGo prox seed tr du fuel (retry + 1) el tried'

/-- `testProxy(proxy, testUrlIndex)` instrumented with the targets tried. -/
def testProxyRun (prox : String) (seed : Nat) (tr : Nat → AttemptOutcome)
    (du : Nat → Nat) : ProbeRun :=
  testProxyGo prox seed tr du maxRetries 0 0 []

/-- `testProxy(proxy, testUrlIndex)` of `src/proxy-tester.js`. -/
def testProxy (prox : String) (seed : Nat) (tr : Nat → AttemptOutcome)
    (du : Nat → Nat) : TestResult :=
  (testProxyRun prox seed tr du).result

end PT

/-! ### P0: `src/unnamed/part_000` -/

namespace P0

/-- The verification-target list of `src/unnamed/part_000`. -/
def testUrls : List String :=
  ["https://httpbin.org/ip", "https://icanhazip.com", "https://ipinfo.io/ip",
   "https://otakudesu.best/anime/watanare-sub-indo"]

/-- Source: `const maxRetries = Math.min(2, testUrls.length);`. -/
def maxRetries : Nat := min 2 testUrls.length

/-- Source: only `responseText.match(/\d{1,3}\.\d{1,3}\.\d{1,3}\.\d{1,3}/)`
(no marker-token or length fallback in this variant). -/
def validBody (s : String) : Bool :=
  containsIPv4 s

/-- One attempt "validates" in the `part_000` variant. -/
def validates (o : AttemptOutcome) : Bool :=
  match o with
  | .ok body => !body.isEmpty && validBody body
  | .err _ => false

/-- The retry loop of `testProxy` in `part_000`; same shape as `PT.testProxyGo`
with this variant's validation, success fields (`testUrl.split('/')[2]`, no
`responseSize`) and bare failure object (no `error`/`testUrl`) on loop exit. -/
def testProxyGo (prox : String) (seed : Nat) (tr : Nat → AttemptOutcome)
    (du : Nat → Nat) : Nat → Nat → Nat → List Nat → ProbeRun
  | 0, _retry, elapsed, tried =>
    { result := { proxy := prox, success := false, responseTime := elapsed,
                  testUrl := "", attempt := none, attempts := some maxRetries,
                  error := none, responseSize := none },
      targetsTried := tried }
  | fuel + 1, retry, elapsed, tried =>
    let t := (seed + retry) % testUrls.length
    let el := elapsed + du retry
    let tried' := tried ++ [t]
    match tr t with
    | .ok body =>
      if !body.isEmpty && validBody body then
        { result := { proxy := prox, success := true, responseTime := el,
                      testUrl := splitSlashTwo (testUrls.getD t ""),
                      attempt := some (retry + 1), attempts := none,
                      error := none, responseSize := none },
          targetsTried := tried' }
      else
        testProxyGo prox seed tr du fuel (retry + 1) el tried'
    | .err m =>
      if fuel = 0 then
        { result := { proxy := prox, success := false, responseTime := el,
                      testUrl := "", attempt := none, attempts := some (retry + 1),
                      error := some m, responseSize := none },
          targetsTried := tried' }
      else
        testProxyGo prox seed tr du fuel (retry + 1) el tried'

/-- `testProxy(proxy, testUrlIndex)` instrumented with the targets tried. -/
def testProxyRun (prox : String) (seed : Nat) (tr : Nat → AttemptOutcome)
    (du : Nat → Nat) : ProbeRun :=
  testProxyGo prox seed tr du maxRetries 0 0 []

/-- `testProxy(proxy, testUrlIndex)` of `src/unnamed/part_000`. -/
def testProxy (prox : String) (seed : Nat) (tr : Nat → AttemptOutcome)
    (du : Nat → Nat) : TestResult :=
  (testProxyRun prox seed tr du).result

end P0

/-! ### Scheduler (`testAllProxies` of `src/proxy-tester.js`)

The scheduler slices the endpoint list into batches (`for (let i = 0; i <
proxiesToTest.length; i += batchSize)` with `slice(i, i + batchSize)`) and each
batch into concurrency groups (`slice(j, j + concurrency)`).  `chunkAux` is
that slicing, driven by a fuel argument equal to the list length so that the
definition is structurally recursive (the JS loop performs at most `length`
iterations since the stride is positive). -/

def chunkAux (n : Nat) : Nat → List α → List (List α)
  | 0, _ => []
  | _, [] => []
  | fuel + 1, l => l.take n :: chunkAux n fuel (l.drop n)

/-- Slices `l` into consecutive chunks of size `n` (last one possibly
shorter), as the JS `slice` loops do for stride `n > 0`. -/
def chunkList (n : Nat) (l : List α) : List (List α) :=
  chunkAux n l.length l

/-- A rejected probe promise (`result.status !== 'fulfilled'` in the result
loop) versus a fulfilled one.  `Except.error` is a rejected promise. -/
def settleOpt : Except String TestResult → Option TestResult
  | .ok r => some r
  | .error _ => none

/-- Entry pushed onto `this.workingProxies` (the `testedAt` timestamp is not
modelled). -/
structure WEntry where
  proxy : String
  responseTime : Nat
  testUrl : String
  attempt : Option Nat
  responseSize : Option Nat
deriving DecidableEq, Repr

/-- Entry pushed onto `this.deadProxies` (the `testedAt` timestamp is not
modelled). -/
structure DEntry where
  proxy : String
  responseTime : Nat
  error : Option String
  attempts : Option Nat
  testUrl : String
deriving DecidableEq, Repr

/-- Projection building the `workingProxies` entry from a test result. -/
def wEntry (r : TestResult) : WEntry :=
  { proxy := r.proxy, responseTime := r.responseTime, testUrl := r.testUrl,
    attempt := r.attempt, responseSize := r.responseSize }

/-- Projection building the `deadProxies` entry from a test result. -/
def dEntry (r : TestResult) : DEntry :=
  { proxy := r.proxy, responseTime := r.responseTime, error := r.error,
    attempts := r.attempts, testUrl := r.testUrl }

/-- Mutable state of a `GitHubProxyTester` instance (constructor values as
defaults).  `delivered` instruments the per-result sink calls
(`logEveryProxyTest` / the append helpers), in the order they happen. -/
structure TState where
  allProxies : List String := []
  workingProxies : List WEntry := []
  deadProxies : List DEntry := []
  totalFetched : Nat := 0
  totalTested : Nat := 0
  totalWorking : Nat := 0
  totalDead : Nat := 0
  delivered : List TestResult := []
deriving DecidableEq, Repr

/-- The freshly constructed tester state. -/
def initTState : TState := {}

/-- The body of the result loop for one settled probe promise: rejected
promises are skipped (`if (result.status === 'fulfilled')` has no else
branch); fulfilled ones bump `totalTested`, are handed to the sink
(`delivered`), and are pushed onto exactly one of the two lists. -/
def processSettled (st : TState) (res : Except String TestResult) : TState :=
  match res with
  | .error _ => st
  | .ok r =>
    if r.success then
      { st with totalTested := st.totalTested + 1,
                delivered := st.delivered ++ [r],
                workingProxies := st.workingProxies ++ [wEntry r] }
    else
      { st with totalTested := st.totalTested + 1,
                delivered := st.delivered ++ [r],
                deadProxies := st.deadProxies ++ [dEntry r] }

namespace PT

/-- Source constant `const batchSize = 30;`. -/
def batchSize : Nat := 30

/-- Source constant `const concurrency = 10;`. -/
def concurrency : Nat := 10

/-- `testAllProxies` of `src/proxy-tester.js`, parameterised by the probe.
`probe p seed` is the promise of `this.testProxy(p, seed)`: `Except.ok` a
fulfilled promise with its classification result, `Except.error` a rejected
one (an unexpected internal error).  The seed passed by the source is
`(i + j + idx) % testUrls.length`, i.e. the endpoint's absolute position
(batch offset + group offset + index) modulo the target count; `List.enum`
supplies exactly those absolute positions.  Per batch, every concurrency
group's `Promise.allSettled` array is built first (`batchPromises`), then the
loop over `batchResults` folds each settled result into the state.  Finally
the `stats` fields are assigned from the accumulated lists. -/
def testAllProxies (probe : String → Nat → Except String TestResult)
    (eps : List String) : TState :=
  let indexed := eps.enum
  let st :=
    (chunkList batchSize indexed).foldl (fun stb batch =>
      let settledGroups :=
        (chunkList concurrency batch).map
          (fun g => g.map (fun q => probe q.2 (q.1 % testUrls.length)))
      settledGroups.foldl (fun stg group => group.foldl processSettled stg) stb)
      initTState
  { st with totalWorking := st.workingProxies.length,
            totalDead := st.deadProxies.length }

end PT

/-! ### Event-trace model of one run of the scheduler

The JS runtime is single-threaded: calling `this.testProxy(p, ...)` while
building a concurrency group starts the probe (it runs to its first `await`
and is then in flight), and no probe can complete — no continuation runs —
until the scheduler itself suspends, which first happens at
`await Promise.all(batchPromises)`.  A batch therefore contributes: one
`launch` event per endpoint of the batch (in group order, all before the
scheduler yields), one `barrier` event (the `await` after which every probe of
the batch has settled), then one `deliver` event per fulfilled probe (the
result loop handing the classification to the sink). -/

inductive SEvent
  | launch (p : String)
  | barrier
  | deliver (p : String)
deriving DecidableEq, Repr

namespace PT

/-- Event trace of one batch of `testAllProxies`. -/
def batchTrace (probe : String → Nat → Except String TestResult)
    (batch : List (Nat × String)) : List SEvent :=
  ((chunkList concurrency batch).map
      (fun g => g.map (fun q => SEvent.launch q.2))).flatten
  ++ [SEvent.barrier]
  ++ ((chunkList concurrency batch).map
      (fun g => g.filterMap
        (fun q => (settleOpt (probe q.2 (q.1 % testUrls.length))).map
          (fun r => SEvent.deliver r.proxy)))).flatten

/-- Event trace of the whole scheduler run. -/
def schedTrace (probe : String → Nat → Except String TestResult)
    (eps : List String) : List SEvent :=
  ((chunkList batchSize eps.enum).map (batchTrace probe)).flatten

end PT

/-- In-flight step function: a `launch` puts one more probe in flight, the
batch `barrier` awaits them all (dropping the count to zero), and a `deliver`
is pure bookkeeping.  The second component records the running maximum. -/
def flightStep : Nat × Nat → SEvent → Nat × Nat
  | (c, m), .launch _ => (c + 1, max m (c + 1))
  | (_, m), .barrier => (0, m)
  | (c, m), .deliver _ => (c, m)

/-- The largest number of probes simultaneously in flight over a trace. -/
def maxInFlight (tr : List SEvent) : Nat :=
  (tr.foldl flightStep (0, 0)).2

/-! ### Endpoint set (`fetchProxies` parsing of `src/proxy-tester.js`) -/

/-- The per-line cleanup of `fetchProxies`: `line.trim()`, strip a leading
`http://`/`https://`, then `split(/[\s#]/)[0]`. -/
def cleanLine (line : String) : String :=
  String.mk (untilSep (stripScheme (trimChars line.data)))

/-- The anchored validation regex
`^\d{1,3}\.\d{1,3}\.\d{1,3}\.\d{1,3}:\d{1,5}$`: exactly one colon splitting an
IPv4-shaped part (four dot-separated runs of 1–3 digits) from a port part of
1–5 digits.  Because a digit can be neither `.` nor `:`, this decomposition is
exactly the regex's anchored match. -/
def isProxyLine (s : String) : Bool :=
  match splitOnChar ':' s.data with
  | [ip, port] =>
    (match splitOnChar '.' ip with
     | [a, b, c, d] =>
       digitsLen a 1 3 && digitsLen b 1 3 && digitsLen c 1 3 && digitsLen d 1 3
     | _ => false) && digitsLen port 1 5
  | _ => false

/-- Numeric port of a stored `ip:port` string (for stating range claims). -/
def portOf (s : String) : Nat :=
  match splitOnChar ':' s.data with
  | [_, port] => charsToNat port
  | _ => 0

/-- Parsing one source body: split on newline runs, clean each line, keep the
lines matching the validation regex (`res.data.split(/[\r\n]+/).map(...)
.filter(...)` — the per-character split only adds empty segments, which the
filter rejects anyway). -/
def parseProxies (body : String) : List String :=
  (((splitOnPred (fun c => c == '\n' || c == '\r') body.data).map
      (fun cs => cleanLine (String.mk cs))).filter isProxyLine)

/-- `if (!this.allProxies.has(proxy)) this.allProxies.add(proxy)` — the
JS `Set` modelled as its insertion-ordered element list. -/
def addProxy (set : List String) (p : String) : List String :=
  if p ∈ set then set else set ++ [p]

/-- Adding the parsed proxies of one source (`proxies.forEach(...)`). -/
def addAll (set : List String) (ps : List String) : List String :=
  ps.foldl addProxy set

/-- Endpoint-set effect of fetching one source whose response body is
`body`. -/
def fetchInto (set : List String) (body : String) : List String :=
  addAll set (parseProxies body)

/-! ### Final sort (`saveResults` of `src/proxy-tester.js`) -/

/-- Comparison used by `this.workingProxies.sort((a, b) =>
a.responseTime - b.responseTime)`. -/
def rtle (a b : WEntry) : Prop := a.responseTime ≤ b.responseTime

instance : DecidableRel rtle := fun a b => Nat.decLe a.responseTime b.responseTime

instance : IsTotal WEntry rtle := ⟨fun a b => Nat.le_total a.responseTime b.responseTime⟩

instance : IsTrans WEntry rtle := ⟨fun _ _ _ => Nat.le_trans⟩

/-- The `saveResults` sort: JS `Array.prototype.sort` is a stable sort
(ECMAScript 2019), embedded as insertion sort, which is stable and sorts by
the same ascending `responseTime` order. -/
def sortWorking (l : List WEntry) : List WEntry :=
  List.insertionSort rtle l

/-- State effect of `saveResults` (the sort; file rendering is modelled in
the run outcome below). -/
def saveResults (st : TState) : TState :=
  { st with workingProxies := sortWorking st.workingProxies }

/-! ### Run coordinator (`run` of `src/proxy-tester.js`)

Each phase (`fetchProxies`, `testAllProxies`, `saveResults`) is a method that
mutates `this` and may throw; it is modelled as a state transformer in the
exception monad, with the thrown error carrying the message and the state at
the moment of the throw.  The `catch` block of `run` writes `stats.json` with
the partial counts, writes `hasil.txt` from whatever `workingProxies` were
accumulated, and calls `process.exit(1)`. -/

/-- Content of the final `stats.json`: the success-path summary, or the
error-path object with `partialResults` counts. -/
inductive StatsOut
  | done (fetched tested working dead : Nat)
  | failed (msg : String) (fetched tested working : Nat)
deriving DecidableEq, Repr

/-- Observable outcome of one `run()`: the process exit code, the lines of
`hasil.txt` (the `\x0A`-joined proxy list; header comment lines of the
success path are not modelled) and the stats document. -/
structure RunOutcome where
  exitCode : Nat
  hasilLines : List String
  statsOut : StatsOut
deriving DecidableEq, Repr

/-- The `hasil.txt` lines written by the catch block: the accumulated working
proxies if any, otherwise the two placeholder comment lines. -/
def errHasilLines (msg : String) (s : TState) : List String :=
  if s.workingProxies.isEmpty then
    ["# No working proxies found due to error", "# Error: " ++ msg]
  else s.workingProxies.map (·.proxy)

/-- The whole catch block of `run`: stats with partial counts
(`fetched/tested/working`), the salvage write of `hasil.txt`, exit code 1. -/
def failOutcome (msg : String) (s : TState) : RunOutcome :=
  { exitCode := 1,
    hasilLines := errHasilLines msg s,
    statsOut := .failed msg s.totalFetched s.totalTested s.workingProxies.length }

/-- A phase: state in, either a thrown (message, state-at-throw) or the new
state. -/
def PhaseFn : Type := TState → Except (String × TState) TState

/-- `run()` of `src/proxy-tester.js` over abstract phases: fetch, the
zero-endpoint guard (`throw new Error("No proxies fetched from any
source!")`), test, save; any exception reaches the single catch block. -/
def runModel (fetchP testP saveP : PhaseFn) (init : TState) : RunOutcome :=
  match fetchP init with
  | .error e => failOutcome e.1 e.2
  | .ok s1 =>
    if s1.allProxies.length = 0 then
      failOutcome "No proxies fetched from any source!" s1
    else
      match testP s1 with
      | .error e => failOutcome e.1 e.2
      | .ok s2 =>
        match saveP s2 with
        | .error e => failOutcome e.1 e.2
        | .ok s3 =>
          { exitCode := 0,
            hasilLines := s3.workingProxies.map (·.proxy),
            statsOut := .done s3.totalFetched s3.totalTested s3.totalWorking s3.totalDead }

/-- The first exception (message with state at throw) escaping a phase of the
run, if any — including the zero-endpoint guard. -/
def firstFailure (fetchP testP saveP : PhaseFn) (init : TState) :
    Option (String × TState) :=
  match fetchP init with
  | .error e => some e
  | .ok s1 =>
    if s1.allProxies.length = 0 then
      some ("No proxies fetched from any source!", s1)
    else
      match testP s1 with
      | .error e => some e
      | .ok s2 =>
        match saveP s2 with
        | .error e => some e
        | .ok _ => none

/-- One endpoint\'s step of the scheduler, after flattening batches and
concurrency groups: settle the probe promise for the endpoint at absolute
position `q.1`, then run the result-loop body. -/
def probeStep (probe : String → Nat → Except String TestResult)
    (st : TState) (q : Nat × String) : TState :=
  processSettled st (probe q.2 (q.1 % PT.testUrls.length))

/-- The fulfilled probe results of the indexed endpoint list, in input
order. -/
def okResults (probe : String → Nat → Except String TestResult)
    (l : List (Nat × String)) : List TestResult :=
  l.filterMap (fun q => settleOpt (probe q.2 (q.1 % PT.testUrls.length)))

/-- A settled probe promise is fulfilled (vs rejected). -/
def isFulfilled (e : Except String TestResult) : Bool :=
  match e with
  | .ok _ => true
  | .error _ => false

/-! ### Concrete fixtures for counterexamples and witnesses -/

/-- A fulfilled always-dead probe result for an endpoint. -/
def deadRes (p : String) : TestResult :=
  { proxy := p, success := false, responseTime := 3, testUrl := "t",
    attempt := none, attempts := some 3, error := some "e", responseSize := none }

/-- A fulfilled always-working probe result for an endpoint (fixed response
time 50 ms, so any two of them tie). -/
def okRes (p : String) : TestResult :=
  { proxy := p, success := true, responseTime := 50, testUrl := "t1",
    attempt := some 1, attempts := none, error := none, responseSize := some 9 }

/-- A probe whose promise rejects for the first endpoint (an injected
unexpected internal error) and fulfils for every other endpoint. -/
def cexProbeReject : String → Nat → Except String TestResult :=
  fun p _ => if p = "1.1.1.1:80" then Except.error "internal error"
             else Except.ok (deadRes p)

/-- Completion times for the two-endpoint fixtures: the second endpoint's
probe completes first (5 ms) while the first endpoint's probe completes last
(100 ms).  Completion times are data about the mocked transport, not about
the scheduler: the point of the counterexamples below is precisely that the
scheduler's output provably does not depend on them. -/
def ctimeCex : String → Nat :=
  fun p => if p = "2.2.2.2:81" then 5 else 100

/-- Thirty distinct endpoints: one full batch for `PT.testAllProxies`
(`batchSize = 30`, `concurrency = 10`). -/
def eps30 : List String :=
  ["10.0.0.1:80", "10.0.0.2:80", "10.0.0.3:80", "10.0.0.4:80", "10.0.0.5:80",
   "10.0.0.6:80", "10.0.0.7:80", "10.0.0.8:80", "10.0.0.9:80", "10.0.0.10:80",
   "10.0.0.11:80", "10.0.0.12:80", "10.0.0.13:80", "10.0.0.14:80", "10.0.0.15:80",
   "10.0.0.16:80", "10.0.0.17:80", "10.0.0.18:80", "10.0.0.19:80", "10.0.0.20:80",
   "10.0.0.21:80", "10.0.0.22:80", "10.0.0.23:80", "10.0.0.24:80", "10.0.0.25:80",
   "10.0.0.26:80", "10.0.0.27:80", "10.0.0.28:80", "10.0.0.29:80", "10.0.0.30:80"]

/-- A transport whose first target errs and whose second returns an
IPv4-bearing body (the third target remains untried). -/
def tr5 : Nat → AttemptOutcome :=
  fun t => if t = 1 then AttemptOutcome.ok "ip is 1.2.3.4" else AttemptOutcome.err "timeout"

/-! ### Structural lemmas about chunking -/

theorem chunkAux_flatten {α : Type} (n : Nat) (hn : 0 < n) :
    ∀ (fuel : Nat) (l : List α), l.length ≤ fuel → (chunkAux n fuel l).flatten = l := by
  intro fuel
  induction fuel with
  | zero =>
    intro l hl
    have : l = [] := List.eq_nil_of_length_eq_zero (Nat.le_zero.mp hl)
    subst this; rfl
  | succ fuel ih =>
    intro l hl
    cases l with
    | nil => rfl
    | cons a as =>
      have hrw : chunkAux n (fuel + 1) (a :: as)
          = (a :: as).take n :: chunkAux n fuel ((a :: as).drop n) := rfl
      rw [hrw, List.flatten_cons,
        ih ((a :: as).drop n) (by simp [List.length_drop, List.length_cons] at hl ⊢; omega),
        List.take_append_drop]

theorem chunkList_flatten {α : Type} (n : Nat) (hn : 0 < n) (l : List α) :
    (chunkList n l).flatten = l :=
  chunkAux_flatten n hn l.length l (Nat.le_refl _)

theorem foldl_chunkAux {α β : Type} (f : β → α → β) (n : Nat) (hn : 0 < n) :
    ∀ (fuel : Nat) (l : List α) (b : β), l.length ≤ fuel →
      (chunkAux n fuel l).foldl (fun st c => c.foldl f st) b = l.foldl f b := by
  intro fuel
  induction fuel with
  | zero =>
    intro l b hl
    have : l = [] := List.eq_nil_of_length_eq_zero (Nat.le_zero.mp hl)
    subst this; rfl
  | succ fuel ih =>
    intro l b hl
    cases l with
    | nil => rfl
    | cons a as =>
      have hrw : chunkAux n (fuel + 1) (a :: as)
          = (a :: as).take n :: chunkAux n fuel ((a :: as).drop n) := rfl
      rw [hrw, List.foldl_cons,
        ih ((a :: as).drop n) _ (by simp [List.length_drop, List.length_cons] at hl ⊢; omega),
        ← List.foldl_append, List.take_append_drop]

theorem foldl_chunkList {α β : Type} (f : β → α → β) (n : Nat) (hn : 0 < n)
    (l : List α) (b : β) :
    (chunkList n l).foldl (fun st c => c.foldl f st) b = l.foldl f b :=
  foldl_chunkAux f n hn l.length l b (Nat.le_refl _)

theorem chunkAux_length_le {α : Type} (n : Nat) :
    ∀ (fuel : Nat) (l : List α) (c : List α), c ∈ chunkAux n fuel l → c.length ≤ n := by
  intro fuel
  induction fuel with
  | zero => intro l c hc; cases l <;> simp [chunkAux] at hc
  | succ fuel ih =>
    intro l c hc
    cases l with
    | nil => simp [chunkAux] at hc
    | cons a as =>
      have hrw : chunkAux n (fuel + 1) (a :: as)
          = (a :: as).take n :: chunkAux n fuel ((a :: as).drop n) := rfl
      rw [hrw] at hc
      rcases List.mem_cons.mp hc with hc | hc
      · subst hc; exact List.length_take_le n _
      · exact ih _ _ hc

theorem chunkList_length_le {α : Type} (n : Nat) (l : List α) (c : List α)
    (hc : c ∈ chunkList n l) : c.length ≤ n :=
  chunkAux_length_le n l.length l c hc

/-! ### Linearisation of the scheduler -/

theorem foldl_probeStep (probe : String → Nat → Except String TestResult) :
    ∀ (l : List (Nat × String)) (st : TState),
      (l.foldl (probeStep probe) st).delivered = st.delivered ++ okResults probe l
      ∧ (l.foldl (probeStep probe) st).workingProxies
          = st.workingProxies ++ ((okResults probe l).filter (·.success)).map wEntry
      ∧ (l.foldl (probeStep probe) st).deadProxies
          = st.deadProxies ++ ((okResults probe l).filter (fun r => !r.success)).map dEntry
      ∧ (l.foldl (probeStep probe) st).totalTested
          = st.totalTested + (okResults probe l).length
      ∧ (l.foldl (probeStep probe) st).totalWorking = st.totalWorking
      ∧ (l.foldl (probeStep probe) st).totalDead = st.totalDead := by
  intro l
  induction l with
  | nil => intro st; simp [okResults]
  | cons q l ih =>
    intro st
    rcases hr : probe q.2 (q.1 % PT.testUrls.length) with m | r
    · -- rejected promise: skipped entirely
      have hok : okResults probe (q :: l) = okResults probe l := by
        simp [okResults, List.filterMap_cons, hr, settleOpt]
      have hstep : List.foldl (probeStep probe) st (q :: l)
          = List.foldl (probeStep probe) st l := by
        show List.foldl (probeStep probe) (probeStep probe st q) l = _
        rw [show probeStep probe st q = st by simp [probeStep, processSettled, hr]]
      rw [hstep, hok]
      exact ih st
    · have hok : okResults probe (q :: l) = r :: okResults probe l := by
        simp [okResults, List.filterMap_cons, hr, settleOpt]
      by_cases hs : r.success
      · obtain ⟨h1, h2, h3, h4, h5, h6⟩ :=
          ih { st with totalTested := st.totalTested + 1,
                       delivered := st.delivered ++ [r],
                       workingProxies := st.workingProxies ++ [wEntry r] }
        have hstep : List.foldl (probeStep probe) st (q :: l)
            = List.foldl (probeStep probe)
                { st with totalTested := st.totalTested + 1,
                          delivered := st.delivered ++ [r],
                          workingProxies := st.workingProxies ++ [wEntry r] } l := by
          show List.foldl (probeStep probe) (probeStep probe st q) l = _
          rw [show probeStep probe st q
              = { st with totalTested := st.totalTested + 1,
                          delivered := st.delivered ++ [r],
                          workingProxies := st.workingProxies ++ [wEntry r] } by
            simp [probeStep, processSettled, hr, hs]]
        rw [hstep, hok]
        refine ⟨?_, ?_, ?_, ?_, ?_, ?_⟩
        · rw [h1]; simp
        · rw [h2]; simp [List.filter_cons, hs]
        · rw [h3]; simp [List.filter_cons, hs]
        · rw [h4]; simp [List.length_cons]; omega
        · rw [h5]
        · rw [h6]
      · obtain ⟨h1, h2, h3, h4, h5, h6⟩ :=
          ih { st with totalTested := st.totalTested + 1,
                       delivered := st.delivered ++ [r],
                       deadProxies := st.deadProxies ++ [dEntry r] }
        have hstep : List.foldl (probeStep probe) st (q :: l)
            = List.foldl (probeStep probe)
                { st with totalTested := st.totalTested + 1,
                          delivered := st.delivered ++ [r],
                          deadProxies := st.deadProxies ++ [dEntry r] } l := by
          show List.foldl (probeStep probe) (probeStep probe st q) l = _
          rw [show probeStep probe st q
              = { st with totalTested := st.totalTested + 1,
                          delivered := st.delivered ++ [r],
                          deadProxies := st.deadProxies ++ [dEntry r] } by
            simp [probeStep, processSettled, hr, hs]]
        rw [hstep, hok]
        refine ⟨?_, ?_, ?_, ?_, ?_, ?_⟩
        · rw [h1]; simp
        · rw [h2]; simp [List.filter_cons, hs]
        · rw [h3]; simp [List.filter_cons, hs]
        · rw [h4]; simp [List.length_cons]; omega
        · rw [h5]
        · rw [h6]

/-- `testAllProxies` equals the linear fold of `probeStep` over the indexed
endpoint list, with the final stats assignment. -/
theorem testAllProxies_eq_foldl (probe : String → Nat → Except String TestResult)
    (eps : List String) :
    PT.testAllProxies probe eps
      = (let st := eps.enum.foldl (probeStep probe) initTState
         { st with totalWorking := st.workingProxies.length,
                   totalDead := st.deadProxies.length }) := by
  unfold PT.testAllProxies
  have inner : ∀ (batch : List (Nat × String)) (stb : TState),
      ((chunkList PT.concurrency batch).map
        (fun g => g.map (fun q => probe q.2 (q.1 % PT.testUrls.length)))).foldl
          (fun stg group => group.foldl processSettled stg) stb
        = batch.foldl (probeStep probe) stb := by
    intro batch stb
    rw [List.foldl_map]
    have : ∀ (g : List (Nat × String)) (s : TState),
        (g.map (fun q => probe q.2 (q.1 % PT.testUrls.length))).foldl processSettled s
          = g.foldl (probeStep probe) s := by
      intro g s
      rw [List.foldl_map]
      rfl
    simp only [this]
    exact foldl_chunkList (probeStep probe) PT.concurrency (by decide) batch stb
  simp only [inner]
  rw [foldl_chunkList (probeStep probe) PT.batchSize (by decide) eps.enum initTState]

/-- Full characterisation of the state `testAllProxies` produces. -/
theorem testAllProxies_spec (probe : String → Nat → Except String TestResult)
    (eps : List String) :
    (PT.testAllProxies probe eps).delivered = okResults probe eps.enum
    ∧ (PT.testAllProxies probe eps).workingProxies
        = ((okResults probe eps.enum).filter (·.success)).map wEntry
    ∧ (PT.testAllProxies probe eps).deadProxies
        = ((okResults probe eps.enum).filter (fun r => !r.success)).map dEntry
    ∧ (PT.testAllProxies probe eps).totalTested = (okResults probe eps.enum).length
    ∧ (PT.testAllProxies probe eps).totalWorking
        = ((okResults probe eps.enum).filter (·.success)).length
    ∧ (PT.testAllProxies probe eps).totalDead
        = ((okResults probe eps.enum).filter (fun r => !r.success)).length := by
  obtain ⟨h1, h2, h3, h4, _h5, _h6⟩ := foldl_probeStep probe eps.enum initTState
  rw [testAllProxies_eq_foldl]
  exact ⟨by rw [h1]; simp [initTState], by rw [h2]; simp [initTState],
    by rw [h3]; simp [initTState], by rw [h4]; simp [initTState],
    by dsimp only; rw [h2]; simp [initTState, List.length_map],
    by dsimp only; rw [h3]; simp [initTState, List.length_map]⟩

/-! ### In-flight analysis of the scheduler trace -/

theorem flatten_map_map {α β : Type} (f : α → β) (L : List (List α)) :
    (L.map (fun g => g.map f)).flatten = L.flatten.map f := by
  induction L with
  | nil => rfl
  | cons g L ih =>
    rw [List.map_cons, List.flatten_cons, List.flatten_cons, List.map_append, ih]

theorem flatten_map_filterMap {α β : Type} (f : α → Option β) (L : List (List α)) :
    (L.map (fun g => g.filterMap f)).flatten = L.flatten.filterMap f := by
  induction L with
  | nil => rfl
  | cons g L ih =>
    rw [List.map_cons, List.flatten_cons, List.flatten_cons, List.filterMap_append, ih]

theorem filterMap_option_map {α β γ : Type} (f : α → Option β) (g : β → γ) (l : List α) :
    l.filterMap (fun a => (f a).map g) = (l.filterMap f).map g := by
  induction l with
  | nil => rfl
  | cons a l ih => rcases h : f a with _ | b <;> simp [List.filterMap_cons, h, ih]

/-- Launch events only accumulate the in-flight counter (and the running
maximum): nothing completes while the scheduler's synchronous loop runs. -/
theorem foldl_flightStep_launch :
    ∀ (l : List (Nat × String)) (c m : Nat), c ≤ m →
      (l.map (fun q => SEvent.launch q.2)).foldl flightStep (c, m)
        = (c + l.length, max m (c + l.length)) := by
  intro l
  induction l with
  | nil =>
    intro c m hcm
    simp [Nat.max_eq_left hcm]
  | cons a l ih =>
    intro c m hcm
    rw [List.map_cons, List.foldl_cons]
    show (l.map (fun q => SEvent.launch q.2)).foldl flightStep (c + 1, max m (c + 1)) = _
    rw [ih (c + 1) (max m (c + 1)) (Nat.le_max_right _ _)]
    have e1 : c + 1 + l.length = c + (l.length + 1) := by omega
    have h2 : max (max m (c + 1)) (c + (l.length + 1))
        = max m (c + (l.length + 1)) := by
      rw [Nat.max_assoc, Nat.max_eq_right (by omega : c + 1 ≤ c + (l.length + 1))]
    rw [e1, List.length_cons, h2]

/-- Deliver events do not change the in-flight bookkeeping. -/
theorem foldl_flightStep_deliver :
    ∀ (rs : List TestResult) (s : Nat × Nat),
      (rs.map (fun r => SEvent.deliver r.proxy)).foldl flightStep s = s := by
  intro rs
  induction rs with
  | nil => intro s; rfl
  | cons r rs ih =>
    intro s
    obtain ⟨c, m⟩ := s
    rw [List.map_cons, List.foldl_cons]
    exact ih (c, m)

/-- Net effect of one batch on the in-flight state: starting idle with
running maximum `m`, the batch launches all of its probes before its
`await` (reaching `batch.length` in flight) and the barrier returns the
scheduler to idle. -/
theorem batchTrace_foldl (probe : String → Nat → Except String TestResult)
    (b : List (Nat × String)) (m : Nat) :
    (PT.batchTrace probe b).foldl flightStep (0, m) = (0, max m b.length) := by
  unfold PT.batchTrace
  rw [flatten_map_map, chunkList_flatten PT.concurrency (by decide),
    flatten_map_filterMap, chunkList_flatten PT.concurrency (by decide),
    filterMap_option_map]
  rw [List.foldl_append, List.foldl_append]
  rw [foldl_flightStep_launch b 0 m (Nat.zero_le m)]
  show (List.map _ _).foldl flightStep (0, max m (0 + b.length)) = _
  rw [foldl_flightStep_deliver]
  simp

/-- The in-flight count over a whole scheduler run never exceeds the batch
size: every batch's probes are all launched before the scheduler first
awaits, and the inter-batch `await` drains them all. -/
theorem maxInFlight_schedTrace_le (probe : String → Nat → Except String TestResult)
    (eps : List String) :
    maxInFlight (PT.schedTrace probe eps) ≤ PT.batchSize := by
  unfold maxInFlight PT.schedTrace
  have main : ∀ (L : List (List (Nat × String))) (m : Nat), m ≤ PT.batchSize →
      (∀ b ∈ L, b.length ≤ PT.batchSize) →
      (((L.map (PT.batchTrace probe)).flatten).foldl flightStep (0, m)).2 ≤ PT.batchSize := by
    intro L
    induction L with
    | nil => intro m hm _; exact hm
    | cons b L ih =>
      intro m hm hb
      rw [List.map_cons, List.flatten_cons, List.foldl_append, batchTrace_foldl]
      exact ih (max m b.length)
        (Nat.max_le.mpr ⟨hm, hb b (List.mem_cons_self _ _)⟩)
        (fun c hc => hb c (List.mem_cons_of_mem _ hc))
  exact main _ 0 (Nat.zero_le _)
    (fun b hb => chunkList_length_le PT.batchSize eps.enum b hb)

/-! ### Sortedness and stability of the `saveResults` sort -/

/-- Inserting `x` skips only strictly-faster entries, so the filter at any
fixed response time is unchanged except for `x` itself, which lands in front
of its ties. -/
theorem filter_orderedInsert (t : Nat) (x : WEntry) (l : List WEntry) :
    (List.orderedInsert rtle x l).filter (fun w => w.responseTime == t)
      = if x.responseTime == t then
          x :: l.filter (fun w => w.responseTime == t)
        else
          l.filter (fun w => w.responseTime == t) := by
  induction l with
  | nil =>
    by_cases hx : x.responseTime == t <;> simp [List.orderedInsert, hx]
  | cons b l ih =>
    by_cases hle : rtle x b
    · simp only [List.orderedInsert, if_pos hle]
      by_cases hx : x.responseTime == t <;> simp [List.filter_cons, hx]
    · simp only [List.orderedInsert, if_neg hle]
      have hblt : b.responseTime < x.responseTime := by
        simp [rtle] at hle; omega
      by_cases hx : x.responseTime == t
      · have hb : (b.responseTime == t) = false := by
          simp only [beq_iff_eq] at hx
          simp only [beq_eq_false_iff_ne, ne_eq]
          omega
        simp [List.filter_cons, hb, ih, hx]
      · simp [List.filter_cons, ih, hx]

/-- Stability of the `saveResults` sort: among entries with any fixed
`responseTime`, the sorted list preserves the order of the input list. -/
theorem filter_sortWorking (t : Nat) (l : List WEntry) :
    (sortWorking l).filter (fun w => w.responseTime == t)
      = l.filter (fun w => w.responseTime == t) := by
  unfold sortWorking
  induction l with
  | nil => rfl
  | cons a l ih =>
    show (List.orderedInsert rtle a (List.insertionSort rtle l)).filter _ = _
    rw [filter_orderedInsert]
    by_cases ha : a.responseTime == t <;> simp [List.filter_cons, ha, ih]

/-! ### Endpoint-set lemmas -/

theorem addProxy_nodup (set : List String) (p : String) (h : set.Nodup) :
    (addProxy set p).Nodup := by
  unfold addProxy
  by_cases hp : p ∈ set
  · simpa [hp]
  · simp [hp, List.nodup_append, h]

theorem addAll_nodup (ps : List String) :
    ∀ (set : List String), set.Nodup → (addAll set ps).Nodup := by
  induction ps with
  | nil => intro set h; exact h
  | cons p ps ih =>
    intro set h
    exact ih (addProxy set p) (addProxy_nodup set p h)

theorem mem_addProxy (set : List String) (p x : String) (hx : x ∈ addProxy set p) :
    x ∈ set ∨ x = p := by
  unfold addProxy at hx
  by_cases hp : p ∈ set
  · simp [hp] at hx; exact Or.inl hx
  · simp [hp] at hx
    rcases hx with hx | hx
    · exact Or.inl hx
    · exact Or.inr hx

theorem mem_of_mem_addAll (ps : List String) :
    ∀ (set : List String) (x : String), x ∈ addAll set ps → x ∈ set ∨ x ∈ ps := by
  induction ps with
  | nil => intro set x hx; exact Or.inl hx
  | cons p ps ih =>
    intro set x hx
    rcases ih (addProxy set p) x hx with hx | hx
    · rcases mem_addProxy set p x hx with hx | hx
      · exact Or.inl hx
      · exact Or.inr (by simp [hx])
    · exact Or.inr (List.mem_cons_of_mem _ hx)

theorem parseProxies_valid (body : String) (x : String) (hx : x ∈ parseProxies body) :
    isProxyLine x = true := by
  unfold parseProxies at hx
  exact List.of_mem_filter hx

/-- Every string the endpoint set ends up holding after processing a source
body either was already there or passed the validation regex. -/
theorem fetchInto_valid (set : List String) (body : String)
    (hset : ∀ x ∈ set, isProxyLine x = true) :
    ∀ x ∈ fetchInto set body, isProxyLine x = true := by
  intro x hx
  rcases mem_of_mem_addAll (parseProxies body) set x hx with hx | hx
  · exact hset x hx
  · exact parseProxies_valid body x hx

/-! ### Step lemmas for the probe loops -/

theorem exists_err_of_isErr {o : AttemptOutcome} (h : isErrOutcome o = true) :
    ∃ m, o = .err m := by
  cases o with
  | ok b => simp [isErrOutcome] at h
  | err m => exact ⟨m, rfl⟩

theorem PT_maxRetries_eq : PT.maxRetries = 3 := rfl

theorem PT_testUrls_length : PT.testUrls.length = 3 := rfl

theorem PT_go_err (prox : String) (seed : Nat) (tr : Nat → AttemptOutcome)
    (du : Nat → Nat) (fuel retry elapsed : Nat) (tried : List Nat) (m : String)
    (h : tr ((seed + retry) % 3) = .err m) :
    PT.testProxyGo prox seed tr du (fuel + 1) retry elapsed tried
      = if fuel = 0 then
          { result := { proxy := prox, success := false,
                        responseTime := elapsed + du retry,
                        testUrl := splitSlashTwo (PT.testUrls.getD ((seed + retry) % 3) ""),
                        attempt := none, attempts := some (retry + 1),
                        error := some m, responseSize := none },
            targetsTried := tried ++ [(seed + retry) % 3] }
        else
          PT.testProxyGo prox seed tr du fuel (retry + 1) (elapsed + du retry)
            (tried ++ [(seed + retry) % 3]) := by
  simp only [PT.testProxyGo, PT_testUrls_length, h]

theorem PT_go_ok (prox : String) (seed : Nat) (tr : Nat → AttemptOutcome)
    (du : Nat → Nat) (fuel retry elapsed : Nat) (tried : List Nat) (body : String)
    (h : tr ((seed + retry) % 3) = .ok body) :
    PT.testProxyGo prox seed tr du (fuel + 1) retry elapsed tried
      = if !body.isEmpty && PT.validBody body then
          { result := { proxy := prox, success := true,
                        responseTime := elapsed + du retry,
                        testUrl := urlHostname (PT.testUrls.getD ((seed + retry) % 3) ""),
                        attempt := some (retry + 1), attempts := none,
                        error := none, responseSize := some body.length },
            targetsTried := tried ++ [(seed + retry) % 3] }
        else
          PT.testProxyGo prox seed tr du fuel (retry + 1) (elapsed + du retry)
            (tried ++ [(seed + retry) % 3]) := by
  simp only [PT.testProxyGo, PT_testUrls_length, h]

theorem P0_maxRetries_eq : P0.maxRetries = 2 := rfl

theorem P0_testUrls_length : P0.testUrls.length = 4 := rfl

theorem P0_go_err (prox : String) (seed : Nat) (tr : Nat → AttemptOutcome)
    (du : Nat → Nat) (fuel retry elapsed : Nat) (tried : List Nat) (m : String)
    (h : tr ((seed + retry) % 4) = .err m) :
    P0.testProxyGo prox seed tr du (fuel + 1) retry elapsed tried
      = if fuel = 0 then
          { result := { proxy := prox, success := false,
                        responseTime := elapsed + du retry,
                        testUrl := "", attempt := none, attempts := some (retry + 1),
                        error := some m, responseSize := none },
            targetsTried := tried ++ [(seed + retry) % 4] }
        else
          P0.testProxyGo prox seed tr du fuel (retry + 1) (elapsed + du retry)
            (tried ++ [(seed + retry) % 4]) := by
  simp only [P0.testProxyGo, P0_testUrls_length, h]

theorem P0_go_ok (prox : String) (seed : Nat) (tr : Nat → AttemptOutcome)
    (du : Nat → Nat) (fuel retry elapsed : Nat) (tried : List Nat) (body : String)
    (h : tr ((seed + retry) % 4) = .ok body) :
    P0.testProxyGo prox seed tr du (fuel + 1) retry elapsed tried
      = if !body.isEmpty && P0.validBody body then
          { result := { proxy := prox, success := true,
                        responseTime := elapsed + du retry,
                        testUrl := splitSlashTwo (P0.testUrls.getD ((seed + retry) % 4) ""),
                        attempt := some (retry + 1), attempts := none,
                        error := none, responseSize := none },
            targetsTried := tried ++ [(seed + retry) % 4] }
        else
          P0.testProxyGo prox seed tr du fuel (retry + 1) (elapsed + du retry)
            (tried ++ [(seed + retry) % 4]) := by
  simp only [P0.testProxyGo, P0_testUrls_length, h]

/-- When every transport attempt throws, `PT.testProxy` makes all three
attempts, visiting the three targets in round-robin order from the seed, and
fails with `attempts = maxRetries`. -/
theorem PT_all_fail (prox : String) (seed : Nat) (tr : Nat → AttemptOutcome)
    (du : Nat → Nat) (herr : ∀ t, isErrOutcome (tr t) = true) :
    (PT.testProxyRun prox seed tr du).result.success = false
    ∧ (PT.testProxyRun prox seed tr du).result.attempts = some PT.maxRetries
    ∧ (PT.testProxyRun prox seed tr du).targetsTried
        = [seed % 3, (seed + 1) % 3, (seed + 2) % 3] := by
  obtain ⟨m0, h0⟩ := exists_err_of_isErr (herr (seed % 3))
  obtain ⟨m1, h1⟩ := exists_err_of_isErr (herr ((seed + 1) % 3))
  obtain ⟨m2, h2⟩ := exists_err_of_isErr (herr ((seed + 2) % 3))
  have e0 : tr ((seed + 0) % 3) = .err m0 := by rw [Nat.add_zero]; exact h0
  unfold PT.testProxyRun
  rw [PT_maxRetries_eq, show (3 : Nat) = 2 + 1 from rfl,
    PT_go_err prox seed tr du 2 0 0 [] m0 e0, if_neg (by decide),
    show (2 : Nat) = 1 + 1 from rfl,
    PT_go_err prox seed tr du 1 1 (0 + du 0) ([] ++ [(seed + 0) % 3]) m1 h1,
    if_neg (by decide), show (1 : Nat) = 0 + 1 from rfl,
    PT_go_err prox seed tr du 0 2 (0 + du 0 + du 1)
      (([] ++ [(seed + 0) % 3]) ++ [(seed + 1) % 3]) m2 h2, if_pos rfl]
  simp [PT_maxRetries_eq]

/-- When every transport attempt throws, `P0.testProxy` makes only
`min 2 4 = 2` attempts, visiting just two of the four targets. -/
theorem P0_all_fail (prox : String) (seed : Nat) (tr : Nat → AttemptOutcome)
    (du : Nat → Nat) (herr : ∀ t, isErrOutcome (tr t) = true) :
    (P0.testProxyRun prox seed tr du).result.success = false
    ∧ (P0.testProxyRun prox seed tr du).result.attempts = some P0.maxRetries
    ∧ (P0.testProxyRun prox seed tr du).targetsTried = [seed % 4, (seed + 1) % 4] := by
  obtain ⟨m0, h0⟩ := exists_err_of_isErr (herr (seed % 4))
  obtain ⟨m1, h1⟩ := exists_err_of_isErr (herr ((seed + 1) % 4))
  have e0 : tr ((seed + 0) % 4) = .err m0 := by rw [Nat.add_zero]; exact h0
  unfold P0.testProxyRun
  rw [P0_maxRetries_eq, show (2 : Nat) = 1 + 1 from rfl,
    P0_go_err prox seed tr du 1 0 0 [] m0 e0, if_neg (by decide),
    show (1 : Nat) = 0 + 1 from rfl,
    P0_go_err prox seed tr du 0 1 (0 + du 0) ([] ++ [(seed + 0) % 4]) m1 h1, if_pos rfl]
  simp [P0_maxRetries_eq]

/-- Any `attempt` value the probe loop can still produce from retry index
`retry` is at least `retry + 1` (so later retries can never report an earlier
attempt number). -/
theorem PT_attempt_lb (prox : String) (seed : Nat) (tr : Nat → AttemptOutcome)
    (du : Nat → Nat) :
    ∀ (fuel retry elapsed : Nat) (tried : List Nat) (a : Nat),
      (PT.testProxyGo prox seed tr du fuel retry elapsed tried).result.attempt = some a →
      retry + 1 ≤ a := by
  intro fuel
  induction fuel with
  | zero =>
    intro retry elapsed tried a h
    simp [PT.testProxyGo] at h
  | succ fuel ih =>
    intro retry elapsed tried a h
    rcases htr : tr ((seed + retry) % 3) with body | m
    · rw [PT_go_ok prox seed tr du fuel retry elapsed tried body htr] at h
      by_cases hv : (!body.isEmpty && PT.validBody body) = true
      · rw [if_pos hv] at h
        simp at h
        omega
      · rw [if_neg hv] at h
        have := ih (retry + 1) _ _ a h
        omega
    · rw [PT_go_err prox seed tr du fuel retry elapsed tried m htr] at h
      by_cases hf : fuel = 0
      · rw [if_pos hf] at h
        simp at h
      · rw [if_neg hf] at h
        have := ih (retry + 1) _ _ a h
        omega

/-- `P0` version of `PT_attempt_lb`. -/
theorem P0_attempt_lb (prox : String) (seed : Nat) (tr : Nat → AttemptOutcome)
    (du : Nat → Nat) :
    ∀ (fuel retry elapsed : Nat) (tried : List Nat) (a : Nat),
      (P0.testProxyGo prox seed tr du fuel retry elapsed tried).result.attempt = some a →
      retry + 1 ≤ a := by
  intro fuel
  induction fuel with
  | zero =>
    intro retry elapsed tried a h
    simp [P0.testProxyGo] at h
  | succ fuel ih =>
    intro retry elapsed tried a h
    rcases htr : tr ((seed + retry) % 4) with body | m
    · rw [P0_go_ok prox seed tr du fuel retry elapsed tried body htr] at h
      by_cases hv : (!body.isEmpty && P0.validBody body) = true
      · rw [if_pos hv] at h
        simp at h
        omega
      · rw [if_neg hv] at h
        have := ih (retry + 1) _ _ a h
        omega
    · rw [P0_go_err prox seed tr du fuel retry elapsed tried m htr] at h
      by_cases hf : fuel = 0
      · rw [if_pos hf] at h
        simp at h
      · rw [if_neg hf] at h
        have := ih (retry + 1) _ _ a h
        omega

theorem PT_validates_true {o : AttemptOutcome} (h : PT.validates o = true) :
    ∃ body, o = .ok body ∧ (!body.isEmpty && PT.validBody body) = true := by
  cases o with
  | ok b => exact ⟨b, rfl, by simpa [PT.validates] using h⟩
  | err m => simp [PT.validates] at h

/-- A non-validating attempt (error, empty body, or failed body check) makes
the loop continue when this is not the last retry. -/
theorem PT_go_skip (prox : String) (seed : Nat) (tr : Nat → AttemptOutcome)
    (du : Nat → Nat) (fuel retry elapsed : Nat) (tried : List Nat)
    (hfail : PT.validates (tr ((seed + retry) % 3)) = false) :
    PT.testProxyGo prox seed tr du (fuel + 1 + 1) retry elapsed tried
      = PT.testProxyGo prox seed tr du (fuel + 1) (retry + 1) (elapsed + du retry)
          (tried ++ [(seed + retry) % 3]) := by
  rcases htr : tr ((seed + retry) % 3) with body | m
  · rw [PT_go_ok prox seed tr du (fuel + 1) retry elapsed tried body htr,
      if_neg (fun hc => by
        rw [htr] at hfail
        simp only [PT.validates] at hfail
        rw [hc] at hfail
        simp at hfail)]
  · rw [PT_go_err prox seed tr du (fuel + 1) retry elapsed tried m htr,
      if_neg (by simp)]

/-- A validating attempt short-circuits the loop with `attempt = retry+1`. -/
theorem PT_go_hit (prox : String) (seed : Nat) (tr : Nat → AttemptOutcome)
    (du : Nat → Nat) (fuel retry elapsed : Nat) (tried : List Nat)
    (hsucc : PT.validates (tr ((seed + retry) % 3)) = true) :
    (PT.testProxyGo prox seed tr du (fuel + 1) retry elapsed tried).result.success = true
    ∧ (PT.testProxyGo prox seed tr du (fuel + 1) retry elapsed tried).result.attempt
        = some (retry + 1)
    ∧ (PT.testProxyGo prox seed tr du (fuel + 1) retry elapsed tried).targetsTried
        = tried ++ [(seed + retry) % 3] := by
  obtain ⟨body, hb, hv⟩ := PT_validates_true hsucc
  rw [PT_go_ok prox seed tr du fuel retry elapsed tried body hb, if_pos hv]
  exact ⟨rfl, rfl, rfl⟩

/-- Short-circuit on first success (`src/proxy-tester.js`): if attempts
`1 .. k-1` do not validate and attempt `k` does, the probe returns success
with `attempt = k` having issued exactly `k` attempts. -/
theorem PT_first_success (prox : String) (seed : Nat) (tr : Nat → AttemptOutcome)
    (du : Nat → Nat) (k : Nat) (hk1 : 1 ≤ k) (hk3 : k ≤ 3)
    (hbefore : ∀ i, i + 1 < k → PT.validates (tr ((seed + i) % 3)) = false)
    (hsucc : PT.validates (tr ((seed + (k - 1)) % 3)) = true) :
    (PT.testProxyRun prox seed tr du).result.success = true
    ∧ (PT.testProxyRun prox seed tr du).result.attempt = some k
    ∧ (PT.testProxyRun prox seed tr du).targetsTried.length = k := by
  unfold PT.testProxyRun
  rw [PT_maxRetries_eq]
  interval_cases k
  · have hs : PT.validates (tr ((seed + 0) % 3)) = true := by simpa using hsucc
    obtain ⟨h1, h2, h3⟩ := PT_go_hit prox seed tr du 2 0 0 [] hs
    rw [show (3 : Nat) = 2 + 1 from rfl]
    exact ⟨h1, h2, by rw [h3]; rfl⟩
  · have hf0 : PT.validates (tr ((seed + 0) % 3)) = false := hbefore 0 (by omega)
    have hs : PT.validates (tr ((seed + 1) % 3)) = true := by simpa using hsucc
    rw [show (3 : Nat) = 1 + 1 + 1 from rfl,
      PT_go_skip prox seed tr du 1 0 0 [] hf0,
      show (0 : Nat) + 1 = 1 from rfl]
    obtain ⟨h1, h2, h3⟩ := PT_go_hit prox seed tr du 1 1 (0 + du 0) ([] ++ [(seed + 0) % 3]) hs
    exact ⟨h1, h2, by rw [h3]; rfl⟩
  · have hf0 : PT.validates (tr ((seed + 0) % 3)) = false := hbefore 0 (by omega)
    have hf1 : PT.validates (tr ((seed + 1) % 3)) = false := hbefore 1 (by omega)
    have hs : PT.validates (tr ((seed + 2) % 3)) = true := by simpa using hsucc
    rw [show (3 : Nat) = 1 + 1 + 1 from rfl,
      PT_go_skip prox seed tr du 1 0 0 [] hf0,
      show (0 : Nat) + 1 = 1 from rfl,
      show (1 : Nat) + 1 = 0 + 1 + 1 from rfl,
      PT_go_skip prox seed tr du 0 1 (0 + du 0) ([] ++ [(seed + 0) % 3]) hf1,
      show (1 : Nat) + 1 = 2 from rfl]
    obtain ⟨h1, h2, h3⟩ := PT_go_hit prox seed tr du 0 2 (0 + du 0 + du 1)
      (([] ++ [(seed + 0) % 3]) ++ [(seed + 1) % 3]) hs
    exact ⟨h1, h2, by rw [h3]; rfl⟩

/-- First-attempt acceptance (`src/proxy-tester.js`): a 200 response with a
non-empty body on the first attempt is accepted — success with `attempt = 1`
— exactly when the body passes `validBody`. -/
theorem PT_accept_iff (prox : String) (seed : Nat) (tr : Nat → AttemptOutcome)
    (du : Nat → Nat) (body : String)
    (h : tr (seed % 3) = .ok body) (hne : body ≠ "") :
    ((PT.testProxy prox seed tr du).success = true
        ∧ (PT.testProxy prox seed tr du).attempt = some 1)
      ↔ PT.validBody body = true := by
  have h0 : tr ((seed + 0) % 3) = .ok body := by rw [Nat.add_zero]; exact h
  have hia : body.isEmpty = false := by
    rcases hb : body.isEmpty
    · rfl
    · exact absurd ((String.isEmpty_iff body).mp hb) hne
  constructor
  · rintro ⟨-, ha⟩
    by_contra hv
    have hvb : PT.validBody body = false := by
      rcases hvb : PT.validBody body
      · rfl
      · exact absurd hvb hv
    have hcond : (!body.isEmpty && PT.validBody body) = false := by simp [hvb]
    unfold PT.testProxy PT.testProxyRun at ha
    rw [PT_maxRetries_eq, show (3 : Nat) = 2 + 1 from rfl,
      PT_go_ok prox seed tr du 2 0 0 [] body h0, if_neg (by simp [hcond])] at ha
    have := PT_attempt_lb prox seed tr du 2 1 (0 + du 0) ([] ++ [(seed + 0) % 3]) 1 ha
    omega
  · intro hv
    have hcond : (!body.isEmpty && PT.validBody body) = true := by simp [hia, hv]
    unfold PT.testProxy PT.testProxyRun
    rw [PT_maxRetries_eq, show (3 : Nat) = 2 + 1 from rfl,
      PT_go_ok prox seed tr du 2 0 0 [] body h0, if_pos hcond]
    exact ⟨rfl, rfl⟩

/-- First-attempt acceptance in the `part_000` variant: acceptance is exactly
`containsIPv4` (no marker-token or length fallback). -/
theorem P0_accept_iff (prox : String) (seed : Nat) (tr : Nat → AttemptOutcome)
    (du : Nat → Nat) (body : String)
    (h : tr (seed % 4) = .ok body) (hne : body ≠ "") :
    ((P0.testProxy prox seed tr du).success = true
        ∧ (P0.testProxy prox seed tr du).attempt = some 1)
      ↔ containsIPv4 body = true := by
  have h0 : tr ((seed + 0) % 4) = .ok body := by rw [Nat.add_zero]; exact h
  have hia : body.isEmpty = false := by
    rcases hb : body.isEmpty
    · rfl
    · exact absurd ((String.isEmpty_iff body).mp hb) hne
  constructor
  · rintro ⟨-, ha⟩
    by_contra hv
    have hvb : P0.validBody body = false := by
      rcases hvb : P0.validBody body
      · rfl
      · exact absurd (by simpa [P0.validBody] using hvb) hv
    have hcond : (!body.isEmpty && P0.validBody body) = false := by simp [hvb]
    unfold P0.testProxy P0.testProxyRun at ha
    rw [P0_maxRetries_eq, show (2 : Nat) = 1 + 1 from rfl,
      P0_go_ok prox seed tr du 1 0 0 [] body h0, if_neg (by simp [hcond])] at ha
    have := P0_attempt_lb prox seed tr du 1 1 (0 + du 0) ([] ++ [(seed + 0) % 4]) 1 ha
    omega
  · intro hv
    have hcond : (!body.isEmpty && P0.validBody body) = true := by
      simp [hia, P0.validBody, hv]
    unfold P0.testProxy P0.testProxyRun
    rw [P0_maxRetries_eq, show (2 : Nat) = 1 + 1 from rfl,
      P0_go_ok prox seed tr du 1 0 0 [] body h0, if_pos hcond]
    exact ⟨rfl, rfl⟩

/-! ### Run-coordinator lemma -/

/-- If any phase throws (including the zero-endpoint guard), `run` takes the
catch path with the message and partial state of the throw. -/
theorem runModel_failure (fetchP testP saveP : PhaseFn) (init : TState)
    (msg : String) (s : TState)
    (hfail : firstFailure fetchP testP saveP init = some (msg, s)) :
    runModel fetchP testP saveP init = failOutcome msg s := by
  unfold firstFailure at hfail
  unfold runModel
  rcases h1 : fetchP init with e | s1
  · simp only [h1] at hfail ⊢
    injection hfail with hx
    rw [hx]
  · simp only [h1] at hfail ⊢
    by_cases hz : s1.allProxies.length = 0
    · rw [if_pos hz] at hfail ⊢
      injection hfail with hx
      injection hx with hm hs
      rw [hm, hs]
    · rw [if_neg hz] at hfail ⊢
      rcases h2 : testP s1 with e | s2
      · simp only [h2] at hfail ⊢
        injection hfail with hx
        rw [hx]
      · simp only [h2] at hfail ⊢
        rcases h3 : saveP s2 with e | s3
        · simp only [h3] at hfail ⊢
          injection hfail with hx
          rw [hx]
        · simp only [h3] at hfail
          simp at hfail

/-! ### Delivered-name lemmas -/

/-- The proxy field of every probe result is the probed endpoint. -/
theorem PT_go_proxy (prox : String) (seed : Nat) (tr : Nat → AttemptOutcome)
    (du : Nat → Nat) :
    ∀ (fuel retry elapsed : Nat) (tried : List Nat),
      (PT.testProxyGo prox seed tr du fuel retry elapsed tried).result.proxy = prox := by
  intro fuel
  induction fuel with
  | zero => intro retry elapsed tried; rfl
  | succ fuel ih =>
    intro retry elapsed tried
    rcases htr : tr ((seed + retry) % 3) with body | m
    · rw [PT_go_ok prox seed tr du fuel retry elapsed tried body htr]
      by_cases hv : (!body.isEmpty && PT.validBody body) = true
      · rw [if_pos hv]
      · rw [if_neg hv]; exact ih (retry + 1) _ _
    · rw [PT_go_err prox seed tr du fuel retry elapsed tried m htr]
      by_cases hf : fuel = 0
      · rw [if_pos hf]
      · rw [if_neg hf]; exact ih (retry + 1) _ _

theorem PT_testProxy_proxy (prox : String) (seed : Nat) (tr : Nat → AttemptOutcome)
    (du : Nat → Nat) : (PT.testProxy prox seed tr du).proxy = prox :=
  PT_go_proxy prox seed tr du PT.maxRetries 0 0 []

/-- Names delivered when probes may be rejected: exactly the fulfilled
endpoints, in input order. -/
theorem okResults_names_filter (probe : String → Nat → Except String TestResult)
    (hname : ∀ p s r, probe p s = Except.ok r → r.proxy = p) :
    ∀ (l : List (Nat × String)),
      (okResults probe l).map (fun r => r.proxy)
        = (l.filter (fun q => isFulfilled (probe q.2 (q.1 % PT.testUrls.length)))).map
            (fun q => q.2) := by
  intro l
  induction l with
  | nil => rfl
  | cons q l ih =>
    rcases hq : probe q.2 (q.1 % PT.testUrls.length) with m | r
    · simp only [okResults, List.filterMap_cons, hq, settleOpt, List.filter_cons,
        isFulfilled]
      simpa [okResults] using ih
    · have hp := hname q.2 _ r hq
      simp only [okResults, List.filterMap_cons, hq, settleOpt, List.filter_cons,
        isFulfilled, List.map_cons, cond_true]
      rw [hp]
      exact congrArg (List.cons q.2) (by simpa [okResults] using ih)

/-- With a probe that always fulfils, the fulfilled results are one per
endpoint. -/
theorem okResults_all_ok (f : Nat × String → TestResult) :
    ∀ (l : List (Nat × String)),
      okResults (fun p s => Except.ok (f (s, p))) l
        = l.map (fun q => f (q.1 % PT.testUrls.length, q.2)) := by
  intro l
  induction l with
  | nil => rfl
  | cons q l ih =>
    simp only [okResults, List.filterMap_cons, settleOpt, List.map_cons]
    simpa [okResults] using ih

/-- Lengths over a success/failure partition of the results. -/
theorem length_filter_partition (l : List TestResult) :
    (l.filter (fun r => r.success)).length
      + (l.filter (fun r => !r.success)).length = l.length := by
  induction l with
  | nil => rfl
  | cons r l ih =>
    by_cases hs : r.success = true <;> simp [List.filter_cons, hs] <;> omega

/-- Counting a key over a success/failure partition of the results. -/
theorem count_filter_partition (f : TestResult → String) (x : String) :
    ∀ (l : List TestResult),
      ((l.filter (fun r => r.success)).map f).count x
        + ((l.filter (fun r => !r.success)).map f).count x
      = (l.map f).count x := by
  intro l
  induction l with
  | nil => rfl
  | cons r l ih =>
    by_cases hs : r.success = true <;>
      simp [List.filter_cons, hs, List.count_cons, ih] <;> omega

/-! ### Claim C1 -/

/-- C1 (counterexample): with two endpoints and an injected probe whose
promise rejects for the first endpoint, `testAllProxies` delivers only one
classification result — the rejected probe is skipped by the
`result.status === \'fulfilled\'` check, not converted into a failed result —
so the claim "exactly N results, one per endpoint, with a rejected probe
still converted" is false.  The batch is not aborted: the other endpoint's
result is still delivered. -/
theorem C1_counterexample :
    (PT.testAllProxies cexProbeReject ["1.1.1.1:80", "2.2.2.2:81"]).delivered.map
        (fun r => r.proxy) = ["2.2.2.2:81"]
    ∧ (PT.testAllProxies cexProbeReject ["1.1.1.1:80", "2.2.2.2:81"]).totalTested = 1
    ∧ ¬((PT.testAllProxies cexProbeReject
          ["1.1.1.1:80", "2.2.2.2:81"]).delivered.length = 2) := by
  decide

/-- C1 (amended): for N endpoints whose probe promises all fulfil, exactly N
classification results are delivered, one per endpoint, with the delivered
endpoint names equal to the input list; a rejected probe promise is dropped
(its endpoint receives no result) while the rest of the batch is unaffected. -/
theorem C1_amended_delivery_complete
    (probe : String → Nat → Except String TestResult) (eps : List String)
    (hname : ∀ p s r, probe p s = Except.ok r → r.proxy = p)
    (hful : ∀ q ∈ eps.enum, ∃ r, probe q.2 (q.1 % PT.testUrls.length) = Except.ok r) :
    (PT.testAllProxies probe eps).delivered.map (fun r => r.proxy) = eps
    ∧ (PT.testAllProxies probe eps).totalTested = eps.length := by
  obtain ⟨hd, _, _, ht, _, _⟩ := testAllProxies_spec probe eps
  have hnames : (okResults probe eps.enum).map (fun r => r.proxy)
      = eps.enum.map (fun q => q.2) := by
    rw [okResults_names_filter probe hname eps.enum]
    congr 1
    apply List.filter_eq_self.mpr
    intro q hq
    obtain ⟨r, hr⟩ := hful q hq
    simp [isFulfilled, hr]
  constructor
  · rw [hd, hnames, List.enum_map_snd]
  · rw [ht]
    have := congrArg List.length hnames
    simpa [List.enum_length] using this

/-- Witness for C1 (amended) at a concrete two-endpoint run whose probes all
fulfil. -/
theorem C1_amended_delivery_complete_witness :
    (PT.testAllProxies (fun p _ => Except.ok (deadRes p))
        ["1.1.1.1:80", "2.2.2.2:81"]).delivered.map (fun r => r.proxy)
      = ["1.1.1.1:80", "2.2.2.2:81"]
    ∧ (PT.testAllProxies (fun p _ => Except.ok (deadRes p))
        ["1.1.1.1:80", "2.2.2.2:81"]).totalTested = 2 := by
  have h := C1_amended_delivery_complete (fun p _ => Except.ok (deadRes p))
    ["1.1.1.1:80", "2.2.2.2:81"]
    (fun p s r hr => by injection hr with hr; rw [← hr]; rfl)
    (fun q _ => ⟨deadRes q.2, rfl⟩)
  exact ⟨h.1, h.2⟩

/-! ### Claim C2 -/

/-- C2 (counterexample): with a full batch of 30 endpoints, the scheduler has
30 probes in flight at once — all concurrency groups of a batch are launched
before any is awaited (`batchPromises` is filled synchronously and only then
`await Promise.all`), so the bound 10–15 claimed for the concurrency width is
exceeded. -/
theorem C2_counterexample :
    maxInFlight (PT.schedTrace (fun _ _ => Except.error "e") eps30) = 30
    ∧ ¬(maxInFlight (PT.schedTrace (fun _ _ => Except.error "e") eps30) ≤ 15)
    ∧ ¬(maxInFlight (PT.schedTrace (fun _ _ => Except.error "e") eps30)
          ≤ PT.concurrency) := by
  decide

/-- C2 (amended): the number of probes in flight simultaneously is bounded by
the batch size (30), not by the concurrency width (10): the concurrency
constant only determines how settled results are grouped. -/
theorem C2_amended_inflight_bounded
    (probe : String → Nat → Except String TestResult) (eps : List String) :
    maxInFlight (PT.schedTrace probe eps) ≤ PT.batchSize
    ∧ PT.batchSize = 30 ∧ PT.concurrency = 10 :=
  ⟨maxInFlight_schedTrace_le probe eps, rfl, rfl⟩

/-! ### Claim C3 -/

/-- C3 (counterexample): two endpoints in the same batch, both probes fulfil;
the second endpoint's probe completes first (`ctimeCex`), yet its result is
delivered second — delivery follows the enqueue order of the
`Promise.allSettled` arrays, and only after the whole batch's barrier: the
scheduler trace is launch, launch, barrier, deliver, deliver, so no result is
delivered before every probe of the batch has completed. -/
theorem C3_counterexample :
    (PT.testAllProxies (fun p _ => Except.ok (deadRes p))
        ["1.1.1.1:80", "2.2.2.2:81"]).delivered.map (fun r => r.proxy)
      = ["1.1.1.1:80", "2.2.2.2:81"]
    ∧ ctimeCex "2.2.2.2:81" < ctimeCex "1.1.1.1:80"
    ∧ PT.schedTrace (fun p _ => Except.ok (deadRes p)) ["1.1.1.1:80", "2.2.2.2:81"]
        = [SEvent.launch "1.1.1.1:80", SEvent.launch "2.2.2.2:81", SEvent.barrier,
           SEvent.deliver "1.1.1.1:80", SEvent.deliver "2.2.2.2:81"] := by
  decide

/-- C3 (amended): classification results are delivered in enqueue order — the
delivered endpoint names equal the fulfilled endpoints in input order,
independent of completion times — and within a batch only after the batch's
`await Promise.all` barrier. -/
theorem C3_amended_delivery_enqueue_order
    (probe : String → Nat → Except String TestResult) (eps : List String)
    (hname : ∀ p s r, probe p s = Except.ok r → r.proxy = p) :
    (PT.testAllProxies probe eps).delivered.map (fun r => r.proxy)
      = (eps.enum.filter
          (fun q => isFulfilled (probe q.2 (q.1 % PT.testUrls.length)))).map
          (fun q => q.2) := by
  obtain ⟨hd, _, _, _, _, _⟩ := testAllProxies_spec probe eps
  rw [hd, okResults_names_filter probe hname eps.enum]

/-- Witness for C3 (amended) at a run with one rejected and one fulfilled
probe. -/
theorem C3_amended_delivery_enqueue_order_witness :
    (PT.testAllProxies cexProbeReject ["1.1.1.1:80", "2.2.2.2:81"]).delivered.map
        (fun r => r.proxy)
      = ((["1.1.1.1:80", "2.2.2.2:81"].enum.filter
          (fun q => isFulfilled (cexProbeReject q.2 (q.1 % PT.testUrls.length)))).map
          (fun q => q.2)) := by
  exact C3_amended_delivery_enqueue_order cexProbeReject ["1.1.1.1:80", "2.2.2.2:81"]
    (fun p s r hr => by
      by_cases hp : p = "1.1.1.1:80"
      · simp [cexProbeReject, hp] at hr
      · simp [cexProbeReject, hp] at hr
        rw [← hr]; rfl)

/-! ### Claim C4 -/

/-- C4 (counterexample): in the `part_000` variant `maxRetries =
Math.min(2, testUrls.length) = 2` while there are 4 verification targets, so
an endpoint whose every attempt fails is tried against only 2 of the 4
targets — target index 2 is never consulted — refuting "tries each
verification target exactly once". -/
theorem C4_counterexample :
    (P0.testProxyRun "1.2.3.4:80" 0 (fun _ => AttemptOutcome.err "boom")
        (fun _ => 1)).targetsTried = [0, 1]
    ∧ P0.testUrls.length = 4
    ∧ ¬(2 ∈ (P0.testProxyRun "1.2.3.4:80" 0 (fun _ => AttemptOutcome.err "boom")
        (fun _ => 1)).targetsTried)
    ∧ (P0.testProxyRun "1.2.3.4:80" 0 (fun _ => AttemptOutcome.err "boom")
        (fun _ => 1)).result.attempts = some 2 := by
  decide

/-- C4 (amended): when every attempt fails, `testProxy` performs exactly
`maxRetries` attempts and returns a failure whose attempt count equals
`maxRetries`, visiting `maxRetries` distinct targets in round-robin order
from the seed, each at most once; `maxRetries` is the number of verification
targets in `proxy-tester.js` (so there each target is tried exactly once) but
`min 2 4 = 2` in the `part_000` variant (so there only 2 of the 4 targets are
tried). -/
theorem C4_amended_retry_exhaustion (prox : String) (seed : Nat)
    (tr tr2 : Nat → AttemptOutcome) (du du2 : Nat → Nat)
    (herr : ∀ t, isErrOutcome (tr t) = true)
    (herr2 : ∀ t, isErrOutcome (tr2 t) = true) :
    PT.maxRetries = PT.testUrls.length
    ∧ (PT.testProxyRun prox seed tr du).result.success = false
    ∧ (PT.testProxyRun prox seed tr du).result.attempts = some PT.maxRetries
    ∧ (PT.testProxyRun prox seed tr du).targetsTried
        = [seed % 3, (seed + 1) % 3, (seed + 2) % 3]
    ∧ (PT.testProxyRun prox seed tr du).targetsTried.Nodup
    ∧ P0.maxRetries = min 2 P0.testUrls.length
    ∧ (P0.testProxyRun prox seed tr2 du2).result.success = false
    ∧ (P0.testProxyRun prox seed tr2 du2).result.attempts = some P0.maxRetries
    ∧ (P0.testProxyRun prox seed tr2 du2).targetsTried = [seed % 4, (seed + 1) % 4]
    ∧ (P0.testProxyRun prox seed tr2 du2).targetsTried.Nodup := by
  obtain ⟨a1, a2, a3⟩ := PT_all_fail prox seed tr du herr
  obtain ⟨b1, b2, b3⟩ := P0_all_fail prox seed tr2 du2 herr2
  refine ⟨rfl, a1, a2, a3, ?_, rfl, b1, b2, b3, ?_⟩
  · rw [a3]
    simp only [List.nodup_cons, List.mem_cons, List.mem_singleton,
      List.not_mem_nil, List.nodup_nil, and_true, not_or, not_false_eq_true]
    omega
  · rw [b3]
    simp only [List.nodup_cons, List.mem_singleton, List.not_mem_nil,
      List.nodup_nil, and_true, not_or, not_false_eq_true]
    omega

/-- Witness for C4 (amended) with an always-erring transport and seed 1. -/
theorem C4_amended_retry_exhaustion_witness :
    (PT.testProxyRun "7.7.7.7:80" 1 (fun _ => AttemptOutcome.err "x")
        (fun _ => 2)).result.attempts = some PT.maxRetries
    ∧ (PT.testProxyRun "7.7.7.7:80" 1 (fun _ => AttemptOutcome.err "x")
        (fun _ => 2)).targetsTried = [1 % 3, (1 + 1) % 3, (1 + 2) % 3]
    ∧ (P0.testProxyRun "7.7.7.7:80" 1 (fun _ => AttemptOutcome.err "x")
        (fun _ => 2)).targetsTried = [1 % 4, (1 + 1) % 4] := by
  have h := C4_amended_retry_exhaustion "7.7.7.7:80" 1
    (fun _ => AttemptOutcome.err "x") (fun _ => AttemptOutcome.err "x")
    (fun _ => 2) (fun _ => 2) (fun _ => rfl) (fun _ => rfl)
  exact ⟨h.2.2.1, h.2.2.2.1, h.2.2.2.2.2.2.2.2.1⟩

/-! ### Claim C5 -/

/-- C5 (confirmed, `src/proxy-tester.js`): if attempts `1 .. k-1` do not
validate and attempt `k` is the first whose response validates, `testProxy`
returns immediately with `success = true` and `attempt = k` (1-based), having
issued exactly `k` attempts — no further attempt is made even though more
verification targets remain. -/
theorem C5_short_circuit_first_success (prox : String) (seed : Nat)
    (tr : Nat → AttemptOutcome) (du : Nat → Nat) (k : Nat)
    (hk1 : 1 ≤ k) (hk3 : k ≤ 3)
    (hbefore : ∀ i, i + 1 < k → PT.validates (tr ((seed + i) % 3)) = false)
    (hsucc : PT.validates (tr ((seed + (k - 1)) % 3)) = true) :
    (PT.testProxyRun prox seed tr du).result.success = true
    ∧ (PT.testProxyRun prox seed tr du).result.attempt = some k
    ∧ (PT.testProxyRun prox seed tr du).targetsTried.length = k :=
  PT_first_success prox seed tr du k hk1 hk3 hbefore hsucc

/-- Witness for C5: attempt 1 fails, attempt 2 succeeds, no third attempt. -/
theorem C5_short_circuit_first_success_witness :
    (PT.testProxyRun "9.9.9.9:80" 0 tr5 (fun _ => 1)).result.success = true
    ∧ (PT.testProxyRun "9.9.9.9:80" 0 tr5 (fun _ => 1)).result.attempt = some 2
    ∧ (PT.testProxyRun "9.9.9.9:80" 0 tr5 (fun _ => 1)).targetsTried.length = 2 := by
  have h := C5_short_circuit_first_success "9.9.9.9:80" 0 tr5 (fun _ => 1) 2
    (by decide) (by decide)
    (fun i hi => by
      have hi0 : i = 0 := by omega
      rw [hi0]; decide)
    (by decide)
  exact h

/-! ### Claim C6 -/

/-- C6 (counterexample): the `part_000` variant validates with the IPv4 regex
only.  The body "origin present" contains the marker token "origin" and has
length above any small threshold, so the claimed acceptance policy accepts
it, yet `P0.testProxy` classifies the endpoint as dead. -/
theorem C6_counterexample :
    containsSub "origin present" "origin" = true
    ∧ decide ((14 : Nat) > 5) = true
    ∧ ("origin present".length = 14)
    ∧ containsIPv4 "origin present" = false
    ∧ (P0.testProxy "1.2.3.4:80" 0
        (fun t => if t = 0 then AttemptOutcome.ok "origin present"
                  else AttemptOutcome.err "timeout")
        (fun _ => 1)).success = false := by
  decide

/-- C6 (amended): in `proxy-tester.js` a first-attempt 200 response with a
non-empty body is accepted (success with `attempt = 1`) exactly when the body
contains an IPv4-shaped substring, or contains the marker token "origin", or
has length above 5; in particular an IPv4-bearing body is accepted.  In the
`part_000` variant acceptance is exactly "contains an IPv4-shaped substring"
(no marker-token or length fallback). -/
theorem C6_amended_validation_acceptance (prox : String) (seed : Nat)
    (tr tr2 : Nat → AttemptOutcome) (du du2 : Nat → Nat) (body body2 : String)
    (h : tr (seed % 3) = AttemptOutcome.ok body) (hne : body ≠ "")
    (h2 : tr2 (seed % 4) = AttemptOutcome.ok body2) (hne2 : body2 ≠ "") :
    (((PT.testProxy prox seed tr du).success = true
        ∧ (PT.testProxy prox seed tr du).attempt = some 1)
      ↔ (containsIPv4 body || containsSub body "origin"
          || decide (body.length > 5)) = true)
    ∧ (containsIPv4 body = true →
        (PT.testProxy prox seed tr du).success = true
        ∧ (PT.testProxy prox seed tr du).attempt = some 1)
    ∧ (((P0.testProxy prox seed tr2 du2).success = true
        ∧ (P0.testProxy prox seed tr2 du2).attempt = some 1)
      ↔ containsIPv4 body2 = true) := by
  have hPT := PT_accept_iff prox seed tr du body h hne
  have hP0 := P0_accept_iff prox seed tr2 du2 body2 h2 hne2
  refine ⟨by simpa [PT.validBody] using hPT, ?_, hP0⟩
  intro hip
  exact hPT.mpr (by simp [PT.validBody, hip])

/-- Witness for C6 at a transport returning an IPv4-bearing 200 body on the
first attempt for both variants. -/
theorem C6_amended_validation_acceptance_witness :
    ((PT.testProxy "8.8.8.8:80" 0 (fun _ => AttemptOutcome.ok "4.4.4.4")
        (fun _ => 1)).success = true
      ∧ (PT.testProxy "8.8.8.8:80" 0 (fun _ => AttemptOutcome.ok "4.4.4.4")
        (fun _ => 1)).attempt = some 1)
    ∧ ((P0.testProxy "8.8.8.8:80" 0 (fun _ => AttemptOutcome.ok "4.4.4.4")
        (fun _ => 1)).success = true
      ∧ (P0.testProxy "8.8.8.8:80" 0 (fun _ => AttemptOutcome.ok "4.4.4.4")
        (fun _ => 1)).attempt = some 1) := by
  have h := C6_amended_validation_acceptance "8.8.8.8:80" 0
    (fun _ => AttemptOutcome.ok "4.4.4.4") (fun _ => AttemptOutcome.ok "4.4.4.4")
    (fun _ => 1) (fun _ => 1) "4.4.4.4" "4.4.4.4" rfl (by decide) rfl (by decide)
  exact ⟨h.2.1 (by decide), h.2.2.mpr (by decide)⟩

/-! ### Claim C7 -/

/-- C7 (counterexample): two successes with equal `responseTime` (50 ms); the
second endpoint's probe completes first (`ctimeCex`), but `saveResults` keeps
the recording (enqueue) order [first, second] among the tie — the tie-break
preserves the order results were pushed, which is not completion order. -/
theorem C7_counterexample :
    (saveResults (PT.testAllProxies (fun p _ => Except.ok (okRes p))
        ["1.1.1.1:80", "2.2.2.2:81"])).workingProxies.map (fun w => w.proxy)
      = ["1.1.1.1:80", "2.2.2.2:81"]
    ∧ (saveResults (PT.testAllProxies (fun p _ => Except.ok (okRes p))
        ["1.1.1.1:80", "2.2.2.2:81"])).workingProxies.map (fun w => w.responseTime)
      = [50, 50]
    ∧ ctimeCex "2.2.2.2:81" < ctimeCex "1.1.1.1:80" := by
  decide

/-- C7 (amended): the `saveResults` sort orders the working list ascending by
`responseTime` (every adjacent pair satisfies `a.responseTime ≤
b.responseTime`), is a permutation of its input, and is stable with respect
to the order in which results were recorded: among entries with any equal
response time, the input (recording) order is preserved — not the completion
order. -/
theorem C7_amended_sorted_stable (l : List WEntry) :
    List.Sorted rtle (sortWorking l)
    ∧ (sortWorking l).Perm l
    ∧ ∀ t : Nat, (sortWorking l).filter (fun w => w.responseTime == t)
        = l.filter (fun w => w.responseTime == t) :=
  ⟨List.sorted_insertionSort rtle l, List.perm_insertionSort rtle l,
    fun t => filter_sortWorking t l⟩

/-! ### Claim C8 -/

/-- C8 (counterexample): the validation regex allows a port of up to five
digits, so "1.2.3.4:99999" — port 99999, outside 1–65535 — is accepted and
stored by the endpoint set, refuting "port in the range 1–65535". -/
theorem C8_counterexample :
    fetchInto [] "1.2.3.4:99999" = ["1.2.3.4:99999"]
    ∧ portOf "1.2.3.4:99999" = 99999
    ∧ ¬(portOf "1.2.3.4:99999" ≤ 65535)
    ∧ isProxyLine "1.2.3.4:99999" = true := by
  decide

/-- C8 (amended): every string stored in the endpoint set matches the
`ddd.ddd.ddd.ddd:ddddd` shape (1–3-digit octets, a 1–5-digit port — no
1–65535 range check), the set holds no duplicates, and candidates not
matching that shape — "not-an-ip", a missing port, a six-digit port — are
rejected without changing the set. -/
theorem C8_amended_endpoint_set_invariant (set : List String) (body : String)
    (hset : ∀ x ∈ set, isProxyLine x = true) (hnd : set.Nodup) :
    (∀ x ∈ fetchInto set body, isProxyLine x = true)
    ∧ (fetchInto set body).Nodup
    ∧ fetchInto set "not-an-ip\n1.2.3.4\n1.2.3.4:999999" = set := by
  refine ⟨fetchInto_valid set body hset, addAll_nodup (parseProxies body) set hnd, ?_⟩
  have hp : parseProxies "not-an-ip\n1.2.3.4\n1.2.3.4:999999" = [] := by decide
  unfold fetchInto
  rw [hp]
  rfl

/-- Witness for C8 (amended) on the empty set and a one-proxy body. -/
theorem C8_amended_endpoint_set_invariant_witness :
    (fetchInto [] "1.2.3.4:8080").Nodup
    ∧ fetchInto [] "not-an-ip\n1.2.3.4\n1.2.3.4:999999" = [] := by
  have h := C8_amended_endpoint_set_invariant [] "1.2.3.4:8080"
    (fun x hx => absurd hx (List.not_mem_nil x)) List.nodup_nil
  exact ⟨h.2.1, h.2.2⟩

/-! ### Claim C9 -/

/-- C9 (confirmed): when an exception escapes fetch, test or finalise
(including the zero-endpoint guard), `run` exits with code 1 but first
flushes the partial state: every working proxy recorded before the error is
written to `hasil.txt` and the partial counts (fetched/tested/working) are
written to the stats document. -/
theorem C9_failure_flushes_partial (fetchP testP saveP : PhaseFn) (init : TState)
    (msg : String) (s : TState)
    (hfail : firstFailure fetchP testP saveP init = some (msg, s)) :
    (runModel fetchP testP saveP init).exitCode = 1
    ∧ (runModel fetchP testP saveP init).statsOut
        = StatsOut.failed msg s.totalFetched s.totalTested s.workingProxies.length
    ∧ (∀ w ∈ s.workingProxies,
        w.proxy ∈ (runModel fetchP testP saveP init).hasilLines)
    ∧ (runModel fetchP testP saveP init).hasilLines = errHasilLines msg s := by
  rw [runModel_failure fetchP testP saveP init msg s hfail]
  refine ⟨rfl, rfl, ?_, rfl⟩
  intro w hw
  show w.proxy ∈ errHasilLines msg s
  unfold errHasilLines
  have hne : s.workingProxies.isEmpty = false := by
    cases hlist : s.workingProxies with
    | nil => rw [hlist] at hw; cases hw
    | cons a as => rfl
  rw [hne]
  simp only [Bool.false_eq_true, if_false]
  exact List.mem_map_of_mem (fun x => x.proxy) hw

/-- Witness for C9: zero endpoints fetched throws the guard; the outcome is
exit 1 with the placeholder `hasil.txt` lines and zeroed partial counts. -/
theorem C9_failure_flushes_partial_witness :
    (runModel (fun st => Except.ok st) (fun st => Except.ok st)
        (fun st => Except.ok st) initTState).exitCode = 1
    ∧ (runModel (fun st => Except.ok st) (fun st => Except.ok st)
        (fun st => Except.ok st) initTState).statsOut
      = StatsOut.failed "No proxies fetched from any source!" 0 0 0
    ∧ (runModel (fun st => Except.ok st) (fun st => Except.ok st)
        (fun st => Except.ok st) initTState).hasilLines
      = ["# No working proxies found due to error",
         "# Error: No proxies fetched from any source!"] := by
  have h := C9_failure_flushes_partial (fun st => Except.ok st)
    (fun st => Except.ok st) (fun st => Except.ok st) initTState
    "No proxies fetched from any source!" initTState rfl
  exact ⟨h.1, h.2.1, by rw [h.2.2.2]; rfl⟩

/-! ### Claim C10 -/

/-- C10 (confirmed): after `testAllProxies` over distinct endpoints with the
real probe (`testProxy` over any per-endpoint transport), the stats are
consistent — `totalTested = totalWorking + totalDead` — and every tested
endpoint was pushed to exactly one of the two lists: for each input endpoint
the occurrence counts in `workingProxies` and `deadProxies` sum to exactly 1,
and to 0 for any string not among the endpoints. -/
theorem C10_counter_consistency (tra : String → Nat → AttemptOutcome)
    (dua : String → Nat → Nat) (eps : List String) (hnd : eps.Nodup) :
    (PT.testAllProxies
        (fun p s => Except.ok (PT.testProxy p s (tra p) (dua p))) eps).totalTested
      = (PT.testAllProxies
          (fun p s => Except.ok (PT.testProxy p s (tra p) (dua p))) eps).totalWorking
        + (PT.testAllProxies
            (fun p s => Except.ok (PT.testProxy p s (tra p) (dua p))) eps).totalDead
    ∧ (PT.testAllProxies
        (fun p s => Except.ok (PT.testProxy p s (tra p) (dua p))) eps).totalTested
      = eps.length
    ∧ ∀ p : String,
        ((PT.testAllProxies
            (fun p s => Except.ok (PT.testProxy p s (tra p) (dua p)))
            eps).workingProxies.map (fun w => w.proxy)).count p
          + ((PT.testAllProxies
              (fun p s => Except.ok (PT.testProxy p s (tra p) (dua p)))
              eps).deadProxies.map (fun d => d.proxy)).count p
        = if p ∈ eps then 1 else 0 := by
  obtain ⟨hd, hw, hdd, ht, htw, htd⟩ := testAllProxies_spec
    (fun p s => Except.ok (PT.testProxy p s (tra p) (dua p))) eps
  have hok : okResults (fun p s => Except.ok (PT.testProxy p s (tra p) (dua p))) eps.enum
      = eps.enum.map (fun q =>
          PT.testProxy q.2 (q.1 % PT.testUrls.length) (tra q.2) (dua q.2)) :=
    okResults_all_ok (fun q => PT.testProxy q.2 q.1 (tra q.2) (dua q.2)) eps.enum
  have hnames : (okResults (fun p s => Except.ok (PT.testProxy p s (tra p) (dua p)))
      eps.enum).map (fun r => r.proxy) = eps := by
    rw [hok, List.map_map]
    have : (fun q : Nat × String =>
        (PT.testProxy q.2 (q.1 % PT.testUrls.length) (tra q.2) (dua q.2)).proxy)
        = fun q : Nat × String => q.2 := by
      funext q
      exact PT_testProxy_proxy q.2 (q.1 % PT.testUrls.length) (tra q.2) (dua q.2)
    rw [show ((fun r : TestResult => r.proxy) ∘ fun q : Nat × String =>
        PT.testProxy q.2 (q.1 % PT.testUrls.length) (tra q.2) (dua q.2))
        = fun q : Nat × String => q.2 from this, List.enum_map_snd]
  refine ⟨?_, ?_, ?_⟩
  · rw [ht, htw, htd]
    exact (length_filter_partition _).symm
  · rw [ht]
    have := congrArg List.length hnames
    simpa [List.length_map, List.enum_length] using this
  · intro p
    rw [hw, hdd, List.map_map, List.map_map]
    have hcw : ((fun w : WEntry => w.proxy) ∘ wEntry) = fun r : TestResult => r.proxy := rfl
    have hcd : ((fun d : DEntry => d.proxy) ∘ dEntry) = fun r : TestResult => r.proxy := rfl
    rw [hcw, hcd, count_filter_partition (fun r => r.proxy) p, hnames]
    by_cases hp : p ∈ eps
    · rw [if_pos hp]
      exact List.count_eq_one_of_mem hnd hp
    · rw [if_neg hp]
      exact List.count_eq_zero.mpr hp

/-- Witness for C10 on two distinct endpoints with an always-erring
transport (both dead). -/
theorem C10_counter_consistency_witness :
    (PT.testAllProxies
        (fun p s => Except.ok (PT.testProxy p s ((fun _ _ => AttemptOutcome.err "x") p)
          ((fun _ _ => 1) p))) ["1.1.1.1:80", "2.2.2.2:81"]).totalTested
      = (PT.testAllProxies
          (fun p s => Except.ok (PT.testProxy p s ((fun _ _ => AttemptOutcome.err "x") p)
            ((fun _ _ => 1) p))) ["1.1.1.1:80", "2.2.2.2:81"]).totalWorking
        + (PT.testAllProxies
            (fun p s => Except.ok (PT.testProxy p s ((fun _ _ => AttemptOutcome.err "x") p)
              ((fun _ _ => 1) p))) ["1.1.1.1:80", "2.2.2.2:81"]).totalDead
    ∧ ((PT.testAllProxies
          (fun p s => Except.ok (PT.testProxy p s ((fun _ _ => AttemptOutcome.err "x") p)
            ((fun _ _ => 1) p))) ["1.1.1.1:80", "2.2.2.2:81"]).workingProxies.map
          (fun w => w.proxy)).count "1.1.1.1:80"
        + ((PT.testAllProxies
            (fun p s => Except.ok (PT.testProxy p s ((fun _ _ => AttemptOutcome.err "x") p)
              ((fun _ _ => 1) p))) ["1.1.1.1:80", "2.2.2.2:81"]).deadProxies.map
            (fun d => d.proxy)).count "1.1.1.1:80"
      = 1 := by
  have h := C10_counter_consistency (fun _ _ => AttemptOutcome.err "x") (fun _ _ => 1)
    ["1.1.1.1:80", "2.2.2.2:81"] (by decide)
  refine ⟨h.1, ?_⟩
  have h3 := h.2.2 "1.1.1.1:80"
  rw [if_pos (by decide : "1.1.1.1:80" ∈ ["1.1.1.1:80", "2.2.2.2:81"])] at h3
  exact h3
